import Mathlib

/-!
Verification of the inbound federation core of a federated forum backend.

The development shallowly embeds the community inbox pipeline
(crates/apub/src/inbox/community_inbox.rs), the inbound object translator
(crates/apub/src/objects/post.rs) and the local community API operations
(crates/api/src/community.rs).  Storage collaborators, the signature
verifier and the content filter live outside the given sources; where a
claim depends on them they are modelled from the specification, each such
definition carrying a doc comment saying so.

Machine integers (Rust i32 ids) are modelled as Int; no claim involves
overflow behaviour.  Timestamps are modelled as Nat.
-/

/-- A URL, reduced to the two components the code inspects: the host
(domain) and the rest. -/
structure Url where
  host : String
  path : String
deriving DecidableEq, Repr

/-- Error type standing for LemmyError; the carried string is the anyhow /
ApiError message used at the corresponding source location, or the spec's
taxonomy name for spec-modelled collaborators. -/
inductive LemmyError where
  | mk (msg : String)
deriving DecidableEq, Repr

/-- HTTP success response produced by the inbox handlers. -/
inductive HttpResponse where
  | ok200
deriving DecidableEq, Repr

def exceptIsOk {α : Type} : Except LemmyError α → Bool
  | .ok _ => true
  | .error _ => false

/- ------------------------------------------------------------------ -/
/- Content filter (lemmy_utils::utils check_slurs / remove_slurs)      -/
/- ------------------------------------------------------------------ -/

/-- Modelled from the spec: the denylist backing the content filter.
The real list is a regex in the out-of-scope utils crate; one
representative denylisted word stands for it. -/
def slurList : List String := ["denylisted"]

/-- Character-list test: does the second list start with the first? -/
def leadsWith : List Char → List Char → Bool
  | [], _ => true
  | _ :: _, [] => false
  | c :: cs, d :: ds => c == d && leadsWith cs ds

/-- Character-list test: does pat occur anywhere in s? -/
def hasSub (pat : List Char) : List Char → Bool
  | [] => leadsWith pat []
  | c :: rest => leadsWith pat (c :: rest) || hasSub pat rest

/-- Fuel-bounded replacement of every occurrence of pat by rep. -/
def replaceAllChars (pat rep : List Char) : Nat → List Char → List Char
  | _, [] => []
  | 0, s => s
  | fuel + 1, c :: rest =>
    if leadsWith pat (c :: rest) && !pat.isEmpty then
      rep ++ replaceAllChars pat rep fuel ((c :: rest).drop pat.length)
    else
      c :: replaceAllChars pat rep fuel rest

/-- Modelled from the spec: does the text contain a denylisted substring?
Stands for the regex test behind check_slurs in the utils crate. -/
def containsSlurs (s : String) : Bool :=
  slurList.any fun w => hasSub w.data s.data

/-- Modelled from the spec: check_slurs from the utils crate — fails with
the "slurs" ApiError when the text contains a denylisted substring. -/
def check_slurs (s : String) : Except LemmyError Unit :=
  if containsSlurs s then .error (.mk ("slurs")) else .ok ()

/-- Modelled from the spec: check_slurs_opt from the utils crate. -/
def check_slurs_opt (s : Option String) : Except LemmyError Unit :=
  match s with
  | none => .ok ()
  | some t => check_slurs t

/-- Modelled from the spec: remove_slurs from the utils crate — strips
(replaces) every denylisted substring. -/
def remove_slurs (s : String) : String :=
  slurList.foldl
    (fun acc w => String.mk (replaceAllChars w.data ("*removed*").data acc.data.length acc.data))
    s

/- ------------------------------------------------------------------ -/
/- Data model (crates/db_schema/src/source)                            -/
/- ------------------------------------------------------------------ -/

/-- Person row, from crates/db_schema/src/source/person.rs. -/
structure Person where
  id : Int
  name : String
  preferred_username : Option String
  avatar : Option Url
  banned : Bool
  published : Nat
  updated : Option Nat
  actor_id : Url
  bio : Option String
  localFlag : Bool
  private_key : Option String
  public_key : Option String
  last_refreshed_at : Nat
  banner : Option Url
  deleted : Bool
  inbox_url : Url
  shared_inbox_url : Option Url
deriving DecidableEq, Repr

/-- Community row, from crates/db_schema/src/source/community.rs. -/
structure Community where
  id : Int
  name : String
  title : String
  description : Option String
  creator_id : Int
  removed : Bool
  published : Nat
  updated : Option Nat
  deleted : Bool
  nsfw : Bool
  actor_id : Url
  localFlag : Bool
  private_key : Option String
  public_key : Option String
  last_refreshed_at : Nat
  icon : Option Url
  banner : Option Url
  followers_url : Url
  inbox_url : Url
  shared_inbox_url : Option Url
deriving DecidableEq, Repr

/-- Follower Relation row, from crates/db_schema/src/source/community.rs. -/
structure CommunityFollower where
  id : Int
  community_id : Int
  person_id : Int
  published : Nat
  pending : Option Bool
deriving DecidableEq, Repr

/-- Insert form for a Follower Relation. -/
structure CommunityFollowerForm where
  community_id : Int
  person_id : Int
  pending : Bool
deriving DecidableEq, Repr

/-- Community ban row, from crates/db_schema/src/source/community.rs. -/
structure CommunityPersonBan where
  id : Int
  community_id : Int
  person_id : Int
  published : Nat
deriving DecidableEq, Repr

/-- Moderator row, from crates/db_schema/src/source/community.rs. -/
structure CommunityModerator where
  id : Int
  community_id : Int
  person_id : Int
  published : Nat
deriving DecidableEq, Repr

/-- Activity types accepted by the community inbox, from
crates/apub/src/inbox/community_inbox.rs (CommunityValidTypes). -/
inductive CommunityValidTypes where
  | Follow
  | Undo
  | Create
  | Update
  | Like
  | Dislike
  | Delete
  | Remove
deriving DecidableEq, Repr

/-- Incoming activity envelope (CommunityAcceptedActivities =
ActorAndObject of CommunityValidTypes).  Only the accessors the pipeline
reads are modelled: id, kind tag, actor, addressing, and the nested
object's kind tag and id. -/
structure Activity where
  id : Option Url
  kind : Option CommunityValidTypes
  actor : Url
  to_ : List Url
  cc : List Url
  objectKind : Option String
  objectId : Option Url
deriving DecidableEq, Repr

/-- Modelled from the spec: the persisted Dedup Record written by
insert_activity (the activity table lives outside the given sources). -/
structure ActivityRecord where
  ap_id : Url
  data : Activity
  localFlag : Bool
  sensitive : Bool
deriving DecidableEq, Repr

/-- Post form, from crates/db_schema (shape used by
crates/apub/src/objects/post.rs). -/
structure PostForm where
  name : String
  url : Option Url
  body : Option String
  creator_id : Int
  community_id : Int
  removed : Option Bool
  locked : Option Bool
  published : Option Nat
  updated : Option Nat
  deleted : Option Bool
  nsfw : Bool
  stickied : Option Bool
  embed_title : Option String
  embed_description : Option String
  embed_html : Option String
  thumbnail_url : Option Url
  ap_id : Option Url
  localFlag : Bool
deriving DecidableEq, Repr

/-- Content records owned by the Object Translator's collaborators
(posts, comments); the delegated content handlers mutate only this. -/
structure ContentState where
  posts : List PostForm
  comments : List Int
deriving DecidableEq, Repr

/-- Storage state threaded through the pipeline, together with the
outbound-delivery effect traces (Accept responses, announces, outbound
follow/unfollow requests). -/
structure DB where
  activities : List ActivityRecord
  persons : List Person
  communities : List Community
  community_followers : List CommunityFollower
  community_moderators : List CommunityModerator
  community_person_bans : List CommunityPersonBan
  content : ContentState
  acceptsSent : List Url
  announcesSent : List Activity
  followsSent : List Url
  unfollowsSent : List Url
deriving DecidableEq, Repr

/-- Environment of external collaborators: the local hostname, the
delegated content handlers (receive_create_for_community and friends,
which live outside the given sources and only touch content state), and
the out-of-scope link-metadata fetcher. -/
structure Env where
  localHost : String
  contentHandler : CommunityValidTypes → ContentState → Except LemmyError ContentState
  iframely : Url → Option String × Option String × Option String × Option Url

/-- An inbound HTTP delivery to a community inbox: the parsed activity,
the path parameter (community name), and the outcome of the cryptographic
signature check, which is external input to the embedded code. -/
structure InboxRequest where
  activity : Activity
  path : String
  sigOk : Bool
deriving Repr

/- ------------------------------------------------------------------ -/
/- Storage collaborator operations                                     -/
/- ------------------------------------------------------------------ -/

/-- Modelled from the spec: Person::read_from_apub_id — look up a person
row by its identifier URL (db_queries crate, not under the given
sources). -/
def Person.read_from_apub_id (db : DB) (apubId : Url) : Except LemmyError Person :=
  match db.persons.find? (fun p => p.actor_id == apubId) with
  | some p => .ok p
  | none => .error (.mk ("NotFound"))

/-- Modelled from the spec: Community::read_from_name — look up a local
community row by name (db_queries crate, not under the given sources). -/
def Community.read_from_name (db : DB) (communityName : String) : Except LemmyError Community :=
  match db.communities.find? (fun c => c.localFlag && c.name == communityName) with
  | some c => .ok c
  | none => .error (.mk ("NotFound"))

/-- Modelled from the spec: Community::read by id (db_queries crate). -/
def Community.read (db : DB) (communityId : Int) : Except LemmyError Community :=
  match db.communities.find? (fun c => c.id == communityId) with
  | some c => .ok c
  | none => .error (.mk ("NotFound"))

/-- Modelled from the spec: CommunityPersonBanView::get — succeeds exactly
when a community ban row exists for the pair. -/
def CommunityPersonBanView.get (db : DB) (personId communityId : Int) :
    Except LemmyError CommunityPersonBan :=
  match db.community_person_bans.find?
      (fun b => b.person_id == personId && b.community_id == communityId) with
  | some b => .ok b
  | none => .error (.mk ("NotFound"))

/-- Modelled from the spec: CommunityFollower::follow — inserts a
Follower Relation; the uniqueness constraint on (community, person) makes
the insert fail when the pair is already present (the source comments at
community_inbox.rs:198 and the api crate rely on exactly this). -/
def CommunityFollower.follow (db : DB) (form : CommunityFollowerForm) :
    Except LemmyError DB :=
  if db.community_followers.any
      (fun f => f.community_id == form.community_id && f.person_id == form.person_id) then
    .error (.mk ("UniqueViolation"))
  else
    .ok { db with community_followers := db.community_followers ++
      [{ id := (db.community_followers.length : Int) + 1,
         community_id := form.community_id,
         person_id := form.person_id,
         published := 0,
         pending := some form.pending }] }

/-- Modelled from the spec: CommunityFollower::unfollow — deletes the
matching Follower Relation rows; fails when none exists. -/
def CommunityFollower.unfollow (db : DB) (form : CommunityFollowerForm) :
    Except LemmyError DB :=
  if db.community_followers.any
      (fun f => f.community_id == form.community_id && f.person_id == form.person_id) then
    .ok { db with
      community_followers := db.community_followers.filter
        (fun f => !(f.community_id == form.community_id && f.person_id == form.person_id)) }
  else
    .error (.mk ("NotFound"))

/-- Modelled from the spec: CommunityModerator::join (db_queries crate) —
insert failing on a duplicate pair. -/
def CommunityModerator.join (db : DB) (communityId personId : Int) :
    Except LemmyError DB :=
  if db.community_moderators.any
      (fun m => m.community_id == communityId && m.person_id == personId) then
    .error (.mk ("UniqueViolation"))
  else
    .ok { db with community_moderators := db.community_moderators ++
      [{ id := (db.community_moderators.length : Int) + 1,
         community_id := communityId,
         person_id := personId,
         published := 0 }] }

/-- The number of Follower Relation rows for a (community, person) pair. -/
def countFollowers (db : DB) (communityId personId : Int) : Nat :=
  (db.community_followers.filter
    (fun f => f.community_id == communityId && f.person_id == personId)).length

/-- The number of Dedup Records for an activity id. -/
def countActivity (db : DB) (apId : Url) : Nat :=
  (db.activities.filter (fun a => a.ap_id == apId)).length

/- ------------------------------------------------------------------ -/
/- Inbox helpers (crates/apub/src/inbox, spec-modelled collaborators)  -/
/- ------------------------------------------------------------------ -/

/-- Modelled from the spec: inbox_verify_http_signature (Signature
Verifier, spec 4.2) — resolves the claimed actor and checks the request
signature against its key; the cryptographic outcome is external input
(InboxRequest.sigOk).  On success it returns the claimed actor, whose
identifier is the envelope's actor field; on failure nothing is processed. -/
def inbox_verify_http_signature (request : InboxRequest) : Except LemmyError Url :=
  if request.sigOk then .ok request.activity.actor
  else .error (.mk ("SignatureInvalid"))

/-- Modelled from the spec: get_activity_id (apub inbox module, not under
the given sources) — reads the envelope id, requiring it to come from the
actor's own domain. -/
def get_activity_id (activity : Activity) (creatorUri : Url) : Except LemmyError Url :=
  match activity.id with
  | none => .error (.mk ("missing activity id"))
  | some aid =>
    if aid.host == creatorUri.host then .ok aid
    else .error (.mk ("DomainError"))

/-- Modelled from the spec: is_activity_already_known — Dedup Record
lookup (Activity Deduplicator, spec 4.3). -/
def is_activity_already_known (db : DB) (activityId : Url) : Bool :=
  db.activities.any (fun r => r.ap_id == activityId)

/-- Modelled from the spec: insert_activity — persists the Dedup Record
for a first-seen activity id. -/
def insert_activity (apId : Url) (activity : Activity) (localFlag sensitive : Bool)
    (db : DB) : DB :=
  { db with activities := db.activities ++
      [{ ap_id := apId, data := activity, localFlag := localFlag, sensitive := sensitive }] }

/-- Combined to/cc addressing list of an envelope (get_activity_to_and_cc
in the apub inbox module). -/
def get_activity_to_and_cc (activity : Activity) : List Url :=
  activity.to_ ++ activity.cc

/-- Modelled from the spec: assert_activity_not_local — rejects an
envelope whose id was minted by this node (ForeignActivity, spec 4.3). -/
def assert_activity_not_local (env : Env) (activity : Activity) : Except LemmyError Unit :=
  match activity.id with
  | none => .error (.mk ("missing activity id"))
  | some aid =>
    if aid.host == env.localHost then
      .error (.mk ("received activity which was sent by local instance"))
    else .ok ()

/-- The public addressing collection URL. -/
def publicUrl : Url := { host := "www.w3.org", path := "/ns/activitystreams#Public" }

/-- Modelled from the spec: is_addressed_to_public — the envelope's to/cc
must include the public collection. -/
def is_addressed_to_public (activity : Activity) : Except LemmyError Unit :=
  if (get_activity_to_and_cc activity).contains publicUrl then .ok ()
  else .error (.mk ("Object is not addressed to public"))

/-- Modelled from the spec: verify_activity_domains_valid (apub receive
module, not under the given sources) — the envelope id must come from the
actor's domain, and, when the object is required, so must the nested
object's id. -/
def verify_activity_domains_valid (activity : Activity) (actorId : Url)
    (objectRequired : Bool) : Except LemmyError Unit :=
  match activity.id with
  | none => .error (.mk ("missing activity id"))
  | some aid =>
    if !(aid.host == actorId.host) then .error (.mk ("DomainError"))
    else
      let objectDomainValid :=
        match activity.objectId with
        | some oid => oid.host == actorId.host
        | none => false
      if objectRequired && !objectDomainValid then
        .error (.mk ("Incorrect activity id"))
      else .ok ()

/- ------------------------------------------------------------------ -/
/- Community inbox (crates/apub/src/inbox/community_inbox.rs)          -/
/- ------------------------------------------------------------------ -/

/-- Embeds check_community_or_site_ban (community_inbox.rs, lines
262-278): error when the person is banned site-wide, then error when a
community ban row exists. -/
def check_community_or_site_ban (person : Person) (communityId : Int) (db : DB) :
    Except LemmyError Unit :=
  if person.banned then .error (.mk ("Person is banned from site"))
  else if exceptIsOk (CommunityPersonBanView.get db person.id communityId) then
    .error (.mk ("Person is banned from community"))
  else .ok ()

/-- Embeds handle_follow (community_inbox.rs, lines 183-207): convert the
envelope to a Follow (its kind tag must be Follow), validate domain
consistency, insert the Follower Relation with pending false ignoring a
uniqueness failure, and synchronously emit the Accept response to the
sender. -/
def handle_follow (db : DB) (activity : Activity) (person : Person)
    (community : Community) : Except LemmyError DB :=
  if !(activity.kind == some CommunityValidTypes.Follow) then
    .error (.mk ("from_any_base"))
  else
    match verify_activity_domains_valid activity person.actor_id false with
    | .error e => .error e
    | .ok _ =>
      -- This will fail if they are already a follower, but ignore the error.
      match CommunityFollower.follow db
          { community_id := community.id, person_id := person.id, pending := false } with
      | .ok d => .ok { d with acceptsSent := d.acceptsSent ++ [person.actor_id] }
      | .error _ => .ok { db with acceptsSent := db.acceptsSent ++ [person.actor_id] }

/-- Embeds handle_undo_follow (community_inbox.rs, lines 230-260):
validate the outer Undo and the wrapped Follow against the sender's
domain, then remove the Follower Relation ignoring a not-found failure. -/
def handle_undo_follow (db : DB) (activity : Activity) (personUrl : Url)
    (community : Community) : Except LemmyError DB :=
  if !(activity.kind == some CommunityValidTypes.Undo) then
    .error (.mk ("from_any_base"))
  else
    match verify_activity_domains_valid activity personUrl true with
    | .error e => .error e
    | .ok _ =>
      match activity.objectId with
      | none => .error (.mk ("missing object"))
      | some oid =>
        if !(activity.objectKind == some ("Follow")) then
          .error (.mk ("from_any_base"))
        else if !(oid.host == personUrl.host) then .error (.mk ("DomainError"))
        else
          match Person.read_from_apub_id db personUrl with
          | .error e => .error e
          | .ok person =>
            -- This will fail if they are not a follower, but ignore the error.
            match CommunityFollower.unfollow db
                { community_id := community.id, person_id := person.id, pending := false } with
            | .ok d => .ok d
            | .error _ => .ok db

/-- Embeds handle_undo (community_inbox.rs, lines 209-227): a wrapped
Follow goes to handle_undo_follow with no announce; any other wrapped
kind goes to the delegated undo handler and is announced. -/
def handle_undo (env : Env) (db : DB) (activity : Activity) (actorUrl : Url)
    (toCommunity : Community) : Except LemmyError (DB × Bool) :=
  if activity.objectKind == some ("Follow") then
    match handle_undo_follow db activity actorUrl toCommunity with
    | .error e => .error e
    | .ok d => .ok (d, false)
  else
    match env.contentHandler CommunityValidTypes.Undo db.content with
    | .error e => .error e
    | .ok c => .ok ({ db with content := c }, true)

/-- Dispatch step of community_receive_message (community_inbox.rs, lines
128-168): the closed match over the activity kind, returning the updated
state together with the do_announce decision. -/
def community_dispatch (env : Env) (db : DB) (activity : Activity) (person : Person)
    (actorUrl : Url) (toCommunity : Community) (kind : CommunityValidTypes) :
    Except LemmyError (DB × Bool) :=
  match kind with
  | CommunityValidTypes.Follow =>
    match handle_follow db activity person toCommunity with
    | .error e => .error e
    | .ok d => .ok (d, false)
  | CommunityValidTypes.Undo => handle_undo env db activity actorUrl toCommunity
  | CommunityValidTypes.Remove =>
    -- Remote mods are not supported, so Remove is ignored.
    .ok (db, false)
  | other =>
    match env.contentHandler other db.content with
    | .error e => .error e
    | .ok c => .ok ({ db with content := c }, true)

/-- Embeds community_receive_message (community_inbox.rs, lines 109-179):
resolve the sender as a person, enforce the site/community ban, dispatch
on the activity kind, and announce the accepted activity when the kind
requires it. -/
def community_receive_message (env : Env) (db : DB) (activity : Activity)
    (toCommunity : Community) (actorUrl : Url) : Except LemmyError DB :=
  match Person.read_from_apub_id db actorUrl with
  | .error e => .error e
  | .ok person =>
    match check_community_or_site_ban person toCommunity.id db with
    | .error e => .error e
    | .ok _ =>
      match activity.kind with
      | none => .error (.mk ("location_info"))
      | some kind =>
        match community_dispatch env db activity person actorUrl toCommunity kind with
        | .error e => .error e
        | .ok (db1, doAnnounce) =>
          if doAnnounce then
            match is_addressed_to_public activity with
            | .error e => .error e
            | .ok _ =>
              .ok { db1 with announcesSent := db1.announcesSent ++ [activity] }
          else .ok db1

/-- Embeds community_inbox (community_inbox.rs, lines 60-106): signature
check, dedup short-circuit, addressing check, foreign-origin check, Dedup
Record insert, then dispatch.  The returned pair carries the storage
state as left behind by the handler (the Dedup Record insert survives a
later failure) together with the HTTP outcome. -/
def community_inbox (env : Env) (db : DB) (request : InboxRequest) :
    DB × Except LemmyError HttpResponse :=
  match inbox_verify_http_signature request with
  | .error e => (db, .error e)
  | .ok actorUrl =>
    match get_activity_id request.activity actorUrl with
    | .error e => (db, .error e)
    | .ok activityId =>
      -- Do nothing if we received the same activity before.
      if is_activity_already_known db activityId then (db, .ok HttpResponse.ok200)
      else
        match Community.read_from_name db request.path with
        | .error e => (db, .error e)
        | .ok community =>
          if !((get_activity_to_and_cc request.activity).contains community.actor_id) then
            (db, .error (.mk ("Activity delivered to wrong community")))
          else
            match assert_activity_not_local env request.activity with
            | .error e => (db, .error e)
            | .ok _ =>
              match community_receive_message env
                  (insert_activity activityId request.activity false true db)
                  request.activity community actorUrl with
              | .error e => (insert_activity activityId request.activity false true db, .error e)
              | .ok db2 => (db2, .ok HttpResponse.ok200)

/- ------------------------------------------------------------------ -/
/- Object Translator (crates/apub/src/objects/post.rs)                 -/
/- ------------------------------------------------------------------ -/

/-- Wire Page object with the lemmy extension, reduced to the accessors
the translator reads (PageExt in crates/apub). -/
structure PageExt where
  id : Option Url
  attributed_to : Option Url
  to_ : List Url
  name : Option String
  summary : Option String
  source_content : Option String
  image : Option Url
  url : Option Url
  published : Option Nat
  updated : Option Nat
  comments_enabled : Option Bool
  sensitive : Option Bool
  stickied : Option Bool
deriving DecidableEq, Repr

/-- Modelled from the spec: check_object_domain (apub objects module, not
under the given sources) — the object's own identifier must come from
expected_domain, otherwise the translation fails with DomainMismatch. -/
def check_object_domain (page : PageExt) (expectedDomain : Url) : Except LemmyError Url :=
  match page.id with
  | none => .error (.mk ("location_info"))
  | some oid =>
    if oid.host == expectedDomain.host then .ok oid
    else .error (.mk ("DomainMismatch"))

/-- Modelled from the spec: get_or_fetch_and_upsert_person (Actor
Resolver, spec 4.1) — resolves an identifier to a person row; the
cache-refresh side effect is not modelled (no claim depends on it). -/
def get_or_fetch_and_upsert_person (db : DB) (apubId : Url) : Except LemmyError Person :=
  match db.persons.find? (fun p => p.actor_id == apubId) with
  | some p => .ok p
  | none => .error (.mk ("ResolutionError"))

/-- Modelled from the spec: get_to_community (apub objects module) —
resolves the community addressed in the object's to field. -/
def get_to_community (db : DB) (page : PageExt) : Except LemmyError Community :=
  match db.communities.find? (fun c => page.to_.contains c.actor_id) with
  | some c => .ok c
  | none => .error (.mk ("ResolutionError"))

/-- Modelled from the spec: get_source_markdown_value — extracts the
markdown source of the object body. -/
def get_source_markdown_value (page : PageExt) : Option String :=
  page.source_content

/-- Embeds FromApubToForm::from_apub for PostForm (post.rs, lines
130-222): resolve the creator and community, extract link and text
fields, run the content filter (blocking on name, stripping on body), and
enforce the object-domain check while producing the form's ap_id. -/
def PostForm.from_apub (env : Env) (db : DB) (page : PageExt) (expectedDomain : Url) :
    Except LemmyError PostForm :=
  match page.attributed_to with
  | none => .error (.mk ("location_info"))
  | some creatorActorId =>
    match get_or_fetch_and_upsert_person db creatorActorId with
    | .error e => .error e
    | .ok creator =>
      match get_to_community db page with
      | .error e => .error e
      | .ok community =>
        let thumbnailUrl := page.image
        let url := page.url
        let fetched :=
          match url with
          | some u => env.iframely u
          | none => (none, none, none, thumbnailUrl)
        match page.name.or page.summary with
        | none => .error (.mk ("location_info"))
        | some name =>
          let body := get_source_markdown_value page
          match check_slurs name with
          | .error e => .error e
          | .ok _ =>
            let bodySlursRemoved := body.map remove_slurs
            match check_object_domain page expectedDomain with
            | .error e => .error e
            | .ok apId =>
              .ok { name := name,
                    url := url,
                    body := bodySlursRemoved,
                    creator_id := creator.id,
                    community_id := community.id,
                    removed := none,
                    locked := page.comments_enabled.map (fun e => !e),
                    published := page.published,
                    updated := page.updated,
                    deleted := none,
                    nsfw := page.sensitive.getD false,
                    stickied := page.stickied.or (some false),
                    embed_title := fetched.1,
                    embed_description := fetched.2.1,
                    embed_html := fetched.2.2.1,
                    thumbnail_url := fetched.2.2.2,
                    ap_id := some apId,
                    localFlag := false }

/- ------------------------------------------------------------------ -/
/- Local community API (crates/api/src/community.rs)                   -/
/- ------------------------------------------------------------------ -/

/-- Request data of the FollowCommunity operation. -/
structure FollowCommunityData where
  community_id : Int
  follow : Bool
deriving DecidableEq, Repr

/-- Modelled from the spec: check_community_ban (api crate helper, not
under the given sources) — errors with the community_ban ApiError when a
community ban row exists for the pair. -/
def check_community_ban (personId communityId : Int) (db : DB) : Except LemmyError Unit :=
  if exceptIsOk (CommunityPersonBanView.get db personId communityId) then
    .error (.mk ("community_ban"))
  else .ok ()

/-- Embeds FollowCommunity::perform (api/community.rs, lines 480-551).
The local user is pre-resolved (session handling is out of scope) and the
final CommunityView read, which is presentational, is not modelled.  On a
local community, a duplicate follow or an absent unfollow surfaces the
community_follower_already_exists ApiError. -/
def FollowCommunity.perform (db : DB) (person : Person) (data : FollowCommunityData) :
    Except LemmyError DB :=
  match Community.read db data.community_id with
  | .error e => .error e
  | .ok community =>
    if community.localFlag then
      if data.follow then
        match check_community_ban person.id data.community_id db with
        | .error e => .error e
        | .ok _ =>
          match CommunityFollower.follow db
              { community_id := data.community_id, person_id := person.id, pending := false } with
          | .error _ => .error (.mk ("community_follower_already_exists"))
          | .ok db1 => .ok db1
      else
        match CommunityFollower.unfollow db
            { community_id := data.community_id, person_id := person.id, pending := false } with
        | .error _ => .error (.mk ("community_follower_already_exists"))
        | .ok db1 => .ok db1
    else if data.follow then
      -- Dont actually add to the community followers here, because you
      -- need to wait for the accept.
      .ok { db with followsSent := db.followsSent ++ [community.actor_id] }
    else
      match CommunityFollower.unfollow
          { db with unfollowsSent := db.unfollowsSent ++ [community.actor_id] }
          { community_id := data.community_id, person_id := person.id, pending := false } with
      | .error _ => .error (.mk ("community_follower_already_exists"))
      | .ok db2 => .ok db2

/-- Request data of the CreateCommunity operation. -/
structure CreateCommunityData where
  name : String
  title : String
  description : Option String
  icon : Option Url
  banner : Option Url
  nsfw : Bool
deriving DecidableEq, Repr

/-- Modelled from the spec: is_valid_community_name (utils crate) —
lowercase alphanumerics and underscores, nonempty. -/
def is_valid_community_name (s : String) : Bool :=
  s.length > 0 && s.data.all (fun c => (c.isLower || c.isDigit) || c == '_')

/-- Embeds CreateCommunity::perform (api/community.rs, lines 126-225).
The local user is pre-resolved, the keypair generator returns placeholder
key material, and the final CommunityView read is not modelled.  The slur
checks on the locally supplied name, title and description run before any
storage access. -/
def CreateCommunity.perform (env : Env) (db : DB) (localUser : Person)
    (data : CreateCommunityData) : Except LemmyError DB :=
  match check_slurs data.name with
  | .error e => .error e
  | .ok _ =>
    match check_slurs data.title with
    | .error e => .error e
    | .ok _ =>
      match check_slurs_opt data.description with
      | .error e => .error e
      | .ok _ =>
        if !is_valid_community_name data.name then
          .error (.mk ("invalid_community_name"))
        else
          let communityActorId : Url := { host := env.localHost, path := "/c/" ++ data.name }
          if db.communities.any (fun c => c.actor_id == communityActorId) then
            .error (.mk ("community_already_exists"))
          else
            let newId : Int := (db.communities.length : Int) + 1
            let community : Community :=
              { id := newId,
                name := data.name,
                title := data.title,
                description := data.description,
                creator_id := localUser.id,
                removed := false,
                published := 0,
                updated := none,
                deleted := false,
                nsfw := data.nsfw,
                actor_id := communityActorId,
                localFlag := true,
                private_key := some ("private_key"),
                public_key := some ("public_key"),
                last_refreshed_at := 0,
                icon := data.icon,
                banner := data.banner,
                followers_url := { host := env.localHost, path := "/c/" ++ data.name ++ "/followers" },
                inbox_url := { host := env.localHost, path := "/c/" ++ data.name ++ "/inbox" },
                shared_inbox_url := some { host := env.localHost, path := "/inbox" } }
            let db1 := { db with communities := db.communities ++ [community] }
            match CommunityModerator.join db1 newId localUser.id with
            | .error _ => .error (.mk ("community_moderator_already_exists"))
            | .ok db2 =>
              let form : CommunityFollowerForm :=
                { community_id := newId, person_id := localUser.id, pending := false }
              match CommunityFollower.follow db2 form with
              | .error _ => .error (.mk ("community_follower_already_exists"))
              | .ok db3 => .ok db3

/- ------------------------------------------------------------------ -/
/- Concrete fixtures                                                   -/
/- ------------------------------------------------------------------ -/

/-- Collaborator environment whose content handlers succeed without
touching content. -/
def envW : Env :=
  { localHost := "a.example",
    contentHandler := fun _ c => .ok c,
    iframely := fun _ => (none, none, none, none) }

/-- Collaborator environment whose content handlers fail (storage or
network collaborator failure). -/
def envFail : Env :=
  { localHost := "a.example",
    contentHandler := fun _ _ => .error (.mk ("collaborator failure")),
    iframely := fun _ => (none, none, none, none) }

def aliceUrl : Url := { host := "b.example", path := "/u/alice" }

def bobUrl : Url := { host := "b.example", path := "/u/bob" }

def techUrl : Url := { host := "a.example", path := "/c/tech" }

/-- Remote person fixture. -/
def alice : Person :=
  { id := 1, name := "alice", preferred_username := none, avatar := none,
    banned := false, published := 0, updated := none, actor_id := aliceUrl,
    bio := none, localFlag := false, private_key := none,
    public_key := some ("alice_public_key"), last_refreshed_at := 0,
    banner := none, deleted := false,
    inbox_url := { host := "b.example", path := "/u/alice/inbox" },
    shared_inbox_url := none }

/-- Site-banned remote person fixture. -/
def bob : Person :=
  { alice with
    id := 2, name := "bob", banned := true, actor_id := bobUrl,
    inbox_url := { host := "b.example", path := "/u/bob/inbox" } }

/-- Local person fixture (community creator / API caller). -/
def carol : Person :=
  { alice with
    id := 3, name := "carol", localFlag := true,
    actor_id := { host := "a.example", path := "/u/carol" },
    inbox_url := { host := "a.example", path := "/u/carol/inbox" } }

/-- Local community fixture. -/
def tech : Community :=
  { id := 1, name := "tech", title := "Tech", description := none,
    creator_id := 3, removed := false, published := 0, updated := none,
    deleted := false, nsfw := false, actor_id := techUrl, localFlag := true,
    private_key := some ("tech_private_key"),
    public_key := some ("tech_public_key"), last_refreshed_at := 0,
    icon := none, banner := none,
    followers_url := { host := "a.example", path := "/c/tech/followers" },
    inbox_url := { host := "a.example", path := "/c/tech/inbox" },
    shared_inbox_url := none }

/-- Base storage state: two remote persons, one local person, one local
community, nothing else. -/
def db0 : DB :=
  { activities := [], persons := [alice, bob, carol], communities := [tech],
    community_followers := [], community_moderators := [],
    community_person_bans := [], content := { posts := [], comments := [] },
    acceptsSent := [], announcesSent := [], followsSent := [],
    unfollowsSent := [] }

def followActivityId : Url := { host := "b.example", path := "/activities/follow/1" }

/-- Follow envelope from alice targeting the tech community. -/
def followActivity : Activity :=
  { id := some followActivityId, kind := some CommunityValidTypes.Follow,
    actor := aliceUrl, to_ := [techUrl], cc := [],
    objectKind := some ("Community"), objectId := some techUrl }

/-- Delivery of the follow envelope with a valid signature. -/
def followRequest : InboxRequest :=
  { activity := followActivity, path := "tech", sigOk := true }

def undoActivityId : Url := { host := "b.example", path := "/activities/undo/2" }

/-- Undo(Follow) envelope from alice targeting the tech community. -/
def undoActivity : Activity :=
  { id := some undoActivityId, kind := some CommunityValidTypes.Undo,
    actor := aliceUrl, to_ := [techUrl], cc := [],
    objectKind := some ("Follow"),
    objectId := some { host := "b.example", path := "/activities/follow/1" } }

/-- Delivery of the undo envelope with a valid signature. -/
def undoRequest : InboxRequest :=
  { activity := undoActivity, path := "tech", sigOk := true }

def followActivityId2 : Url := { host := "b.example", path := "/activities/follow/3" }

/-- A second, distinct Follow envelope from alice (fresh activity id). -/
def followActivity2 : Activity :=
  { followActivity with id := some followActivityId2 }

def followRequest2 : InboxRequest :=
  { activity := followActivity2, path := "tech", sigOk := true }

def likeActivityId : Url := { host := "b.example", path := "/activities/like/4" }

/-- Like envelope from alice, publicly addressed. -/
def likeActivity : Activity :=
  { id := some likeActivityId, kind := some CommunityValidTypes.Like,
    actor := aliceUrl, to_ := [techUrl, publicUrl], cc := [],
    objectKind := some ("Page"),
    objectId := some { host := "a.example", path := "/post/1" } }

def likeRequest : InboxRequest :=
  { activity := likeActivity, path := "tech", sigOk := true }

/- ------------------------------------------------------------------ -/
/- Helper lemmas                                                       -/
/- ------------------------------------------------------------------ -/

lemma insert_activity_persons (aid : Url) (a : Activity) (l s : Bool) (db : DB) :
    (insert_activity aid a l s db).persons = db.persons := rfl

lemma insert_activity_communities (aid : Url) (a : Activity) (l s : Bool) (db : DB) :
    (insert_activity aid a l s db).communities = db.communities := rfl

lemma insert_activity_bans (aid : Url) (a : Activity) (l s : Bool) (db : DB) :
    (insert_activity aid a l s db).community_person_bans = db.community_person_bans := rfl

lemma insert_activity_followers (aid : Url) (a : Activity) (l s : Bool) (db : DB) :
    (insert_activity aid a l s db).community_followers = db.community_followers := rfl

lemma insert_activity_content (aid : Url) (a : Activity) (l s : Bool) (db : DB) :
    (insert_activity aid a l s db).content = db.content := rfl

lemma insert_activity_activities (aid : Url) (a : Activity) (l s : Bool) (db : DB) :
    (insert_activity aid a l s db).activities =
      db.activities ++ [{ ap_id := aid, data := a, localFlag := l, sensitive := s }] := rfl

lemma person_read_inv {db : DB} {u : Url} {p : Person}
    (h : Person.read_from_apub_id db u = .ok p) :
    db.persons.find? (fun q => q.actor_id == u) = some p := by
  unfold Person.read_from_apub_id at h
  cases hf : db.persons.find? (fun q => q.actor_id == u) with
  | none => rw [hf] at h; cases h
  | some q => rw [hf] at h; injection h with h; rw [h]

lemma community_read_from_name_inv {db : DB} {n : String} {c : Community}
    (h : Community.read_from_name db n = .ok c) :
    db.communities.find? (fun x => x.localFlag && x.name == n) = some c := by
  unfold Community.read_from_name at h
  cases hf : db.communities.find? (fun x => x.localFlag && x.name == n) with
  | none => rw [hf] at h; cases h
  | some q => rw [hf] at h; injection h with h; rw [h]

lemma get_activity_id_inv {a : Activity} {u : Url} {aid : Url}
    (h : get_activity_id a u = .ok aid) :
    a.id = some aid ∧ (aid.host == u.host) = true := by
  unfold get_activity_id at h
  split at h
  · cases h
  · rename_i i heq
    split at h
    · rename_i hh
      injection h with h
      subst h
      exact ⟨heq, hh⟩
    · cases h

lemma ban_check_inv {p : Person} {cid : Int} {db : DB}
    (h : check_community_or_site_ban p cid db = .ok ()) :
    p.banned = false ∧
      db.community_person_bans.find?
        (fun b => b.person_id == p.id && b.community_id == cid) = none := by
  unfold check_community_or_site_ban at h
  split at h
  · cases h
  · rename_i hban
    split at h
    · cases h
    · rename_i hget
      refine ⟨by simpa using hban, ?_⟩
      unfold CommunityPersonBanView.get at hget
      revert hget
      split
      · intro hget; simp [exceptIsOk] at hget
      · intro _; assumption

lemma assert_not_local_inv {env : Env} {a : Activity} {aid : Url}
    (hid : a.id = some aid) (h : assert_activity_not_local env a = .ok ()) :
    (aid.host == env.localHost) = false := by
  unfold assert_activity_not_local at h
  split at h
  · cases h
  · rename_i v heq
    rw [hid] at heq
    injection heq with heq
    subst heq
    split at h
    · cases h
    · rename_i hcond
      simpa using hcond

lemma verify_domains_false_inv {a : Activity} {u : Url} {aid : Url}
    (hid : a.id = some aid)
    (h : verify_activity_domains_valid a u false = .ok ()) :
    (aid.host == u.host) = true := by
  unfold verify_activity_domains_valid at h
  split at h
  · cases h
  · rename_i v heq
    rw [hid] at heq
    injection heq with heq
    subst heq
    split at h
    · cases h
    · rename_i hcond
      simpa using hcond

lemma verify_domains_true_inv {a : Activity} {u : Url} {aid : Url}
    (hid : a.id = some aid)
    (h : verify_activity_domains_valid a u true = .ok ()) :
    (aid.host == u.host) = true ∧
      ∃ oid, a.objectId = some oid ∧ (oid.host == u.host) = true := by
  unfold verify_activity_domains_valid at h
  split at h
  · cases h
  · rename_i v heq
    rw [hid] at heq
    injection heq with heq
    subst heq
    split at h
    · cases h
    · rename_i hcond
      refine ⟨by simpa using hcond, ?_⟩
      cases hob : a.objectId with
      | none => rw [hob] at h; simp at h
      | some oid =>
        rw [hob] at h
        cases hoh : (oid.host == u.host) with
        | false => simp only [hoh] at h; simp at h
        | true => exact ⟨oid, rfl, hoh⟩

/-- Characterizes a complete, accepted delivery of a Follow envelope from
a sender with no existing Follower Relation: the Dedup Record is written,
exactly one Follower Relation with pending false is inserted, one Accept
is emitted to the sender, nothing is announced, and the response is 200. -/
lemma run_follow_fresh (env : Env) (db : DB) (req : InboxRequest) (aid : Url)
    (p : Person) (c : Community)
    (hsig : req.sigOk = true)
    (hgid : get_activity_id req.activity req.activity.actor = .ok aid)
    (hk : is_activity_already_known db aid = false)
    (hc : Community.read_from_name db req.path = .ok c)
    (hto : (get_activity_to_and_cc req.activity).contains c.actor_id = true)
    (hnl : assert_activity_not_local env req.activity = .ok ())
    (hp : Person.read_from_apub_id db req.activity.actor = .ok p)
    (hb : check_community_or_site_ban p c.id db = .ok ())
    (hkind : req.activity.kind = some CommunityValidTypes.Follow)
    (hdom : verify_activity_domains_valid req.activity p.actor_id false = .ok ())
    (hnf : db.community_followers.any
      (fun f => f.community_id == c.id && f.person_id == p.id) = false) :
    community_inbox env db req =
      ({ insert_activity aid req.activity false true db with
          community_followers := db.community_followers ++
            [{ id := (db.community_followers.length : Int) + 1, community_id := c.id,
               person_id := p.id, published := 0, pending := some false }],
          acceptsSent := db.acceptsSent ++ [p.actor_id] },
        .ok HttpResponse.ok200) := by
  obtain ⟨hid, hidh⟩ := get_activity_id_inv hgid
  have hfc := community_read_from_name_inv hc
  have hfp := person_read_inv hp
  obtain ⟨hban, hfb⟩ := ban_check_inv hb
  have hnl' := assert_not_local_inv hid hnl
  have hdomh := verify_domains_false_inv hid hdom
  simp only [community_inbox, inbox_verify_http_signature, hsig, if_true,
    get_activity_id, hid, hidh, hk, Bool.false_eq_true, if_false,
    Community.read_from_name, hfc, hto, Bool.not_true,
    assert_activity_not_local, hnl', insert_activity,
    community_receive_message, community_dispatch, Person.read_from_apub_id, hfp,
    check_community_or_site_ban, hban, CommunityPersonBanView.get, hfb,
    exceptIsOk, hkind, handle_follow, verify_activity_domains_valid, hdomh,
    CommunityFollower.follow, hnf, Bool.false_and, Bool.true_and,
    Bool.and_false, Bool.and_true, Bool.not_false, beq_self_eq_true]


lemma follow_ok_frame {db : DB} {form : CommunityFollowerForm} {d : DB}
    (h : CommunityFollower.follow db form = .ok d) :
    d.activities = db.activities ∧ d.persons = db.persons ∧
    d.communities = db.communities ∧
    d.community_person_bans = db.community_person_bans ∧
    d.announcesSent = db.announcesSent ∧ d.content = db.content ∧
    d.acceptsSent = db.acceptsSent := by
  unfold CommunityFollower.follow at h
  split at h
  · cases h
  · injection h with h
    subst h
    exact ⟨rfl, rfl, rfl, rfl, rfl, rfl, rfl⟩

lemma unfollow_ok_frame {db : DB} {form : CommunityFollowerForm} {d : DB}
    (h : CommunityFollower.unfollow db form = .ok d) :
    d.activities = db.activities ∧ d.persons = db.persons ∧
    d.communities = db.communities ∧
    d.community_person_bans = db.community_person_bans ∧
    d.announcesSent = db.announcesSent ∧ d.content = db.content ∧
    d.acceptsSent = db.acceptsSent := by
  unfold CommunityFollower.unfollow at h
  split at h
  · injection h with h
    subst h
    exact ⟨rfl, rfl, rfl, rfl, rfl, rfl, rfl⟩
  · cases h

lemma handle_follow_frame {db : DB} {a : Activity} {p : Person} {c : Community} {d : DB}
    (h : handle_follow db a p c = .ok d) :
    d.activities = db.activities ∧ d.persons = db.persons ∧
    d.communities = db.communities ∧
    d.community_person_bans = db.community_person_bans ∧
    d.announcesSent = db.announcesSent ∧ d.content = db.content := by
  unfold handle_follow at h
  split at h
  · cases h
  · split at h
    · cases h
    · split at h
      · rename_i d1 hf
        injection h with h
        subst h
        obtain ⟨h1, h2, h3, h4, h5, h6, _⟩ := follow_ok_frame hf
        exact ⟨h1, h2, h3, h4, h5, h6⟩
      · injection h with h
        subst h
        exact ⟨rfl, rfl, rfl, rfl, rfl, rfl⟩

lemma handle_undo_follow_frame {db : DB} {a : Activity} {u : Url} {c : Community} {d : DB}
    (h : handle_undo_follow db a u c = .ok d) :
    d.activities = db.activities ∧ d.persons = db.persons ∧
    d.communities = db.communities ∧
    d.community_person_bans = db.community_person_bans ∧
    d.announcesSent = db.announcesSent ∧ d.content = db.content ∧
    d.acceptsSent = db.acceptsSent := by
  unfold handle_undo_follow at h
  split at h
  · cases h
  · split at h
    · cases h
    · split at h
      · cases h
      · split at h
        · cases h
        · split at h
          · cases h
          · split at h
            · cases h
            · split at h
              · rename_i d1 hunf
                injection h with h
                subst h
                exact unfollow_ok_frame hunf
              · injection h with h
                subst h
                exact ⟨rfl, rfl, rfl, rfl, rfl, rfl, rfl⟩

lemma dispatch_ok_frame {env : Env} {db : DB} {a : Activity} {p : Person} {u : Url}
    {c : Community} {k : CommunityValidTypes} {db1 : DB} {da : Bool}
    (h : community_dispatch env db a p u c k = .ok (db1, da)) :
    db1.activities = db.activities ∧ db1.persons = db.persons ∧
    db1.communities = db.communities ∧
    db1.community_person_bans = db.community_person_bans ∧
    db1.announcesSent = db.announcesSent := by
  unfold community_dispatch at h
  cases k with
  | Follow =>
    simp only [] at h
    split at h
    · cases h
    · rename_i d hf
      injection h with h
      injection h with h hda
      subst h
      obtain ⟨h1, h2, h3, h4, h5, _⟩ := handle_follow_frame hf
      exact ⟨h1, h2, h3, h4, h5⟩
  | Undo =>
    simp only [] at h
    unfold handle_undo at h
    split at h
    · split at h
      · cases h
      · rename_i d hf
        injection h with h
        injection h with h hda
        subst h
        obtain ⟨h1, h2, h3, h4, h5, _, _⟩ := handle_undo_follow_frame hf
        exact ⟨h1, h2, h3, h4, h5⟩
    · split at h
      · cases h
      · injection h with h
        injection h with h hda
        subst h
        exact ⟨rfl, rfl, rfl, rfl, rfl⟩
  | Remove =>
    simp only [] at h
    injection h with h
    injection h with h hda
    subst h
    exact ⟨rfl, rfl, rfl, rfl, rfl⟩
  | Create =>
    simp only [] at h
    split at h
    · cases h
    · injection h with h
      injection h with h hda
      subst h
      exact ⟨rfl, rfl, rfl, rfl, rfl⟩
  | Update =>
    simp only [] at h
    split at h
    · cases h
    · injection h with h
      injection h with h hda
      subst h
      exact ⟨rfl, rfl, rfl, rfl, rfl⟩
  | Like =>
    simp only [] at h
    split at h
    · cases h
    · injection h with h
      injection h with h hda
      subst h
      exact ⟨rfl, rfl, rfl, rfl, rfl⟩
  | Dislike =>
    simp only [] at h
    split at h
    · cases h
    · injection h with h
      injection h with h hda
      subst h
      exact ⟨rfl, rfl, rfl, rfl, rfl⟩
  | Delete =>
    simp only [] at h
    split at h
    · cases h
    · injection h with h
      injection h with h hda
      subst h
      exact ⟨rfl, rfl, rfl, rfl, rfl⟩

lemma receive_ok_frame {env : Env} {db : DB} {a : Activity} {c : Community}
    {u : Url} {db' : DB}
    (h : community_receive_message env db a c u = .ok db') :
    db'.activities = db.activities ∧ db'.persons = db.persons ∧
    db'.communities = db.communities ∧
    db'.community_person_bans = db.community_person_bans ∧
    db'.announcesSent.length ≤ db.announcesSent.length + 1 := by
  unfold community_receive_message at h
  split at h
  · cases h
  · split at h
    · cases h
    · split at h
      · cases h
      · split at h
        · cases h
        · rename_i db1 da hdisp
          obtain ⟨h1, h2, h3, h4, h5⟩ := dispatch_ok_frame hdisp
          split at h
          · split at h
            · cases h
            · injection h with h
              subst h
              refine ⟨h1, h2, h3, h4, ?_⟩
              simp [h5]
          · injection h with h
            subst h
            refine ⟨h1, h2, h3, h4, ?_⟩
            rw [h5]
            exact Nat.le_succ _

lemma known_false_count_zero {db : DB} {aid : Url}
    (hk : is_activity_already_known db aid = false) : countActivity db aid = 0 := by
  unfold is_activity_already_known at hk
  unfold countActivity
  rw [List.length_eq_zero, List.filter_eq_nil_iff]
  intro r hr
  have := List.any_eq_false.mp hk r hr
  simpa using this

lemma count_append_match {db1 db : DB} {aid : Url} {r : ActivityRecord}
    (hact : db1.activities = db.activities ++ [r]) (hr : r.ap_id = aid) :
    countActivity db1 aid = countActivity db aid + 1 := by
  unfold countActivity
  rw [hact, List.filter_append, List.length_append]
  simp [hr]

lemma known_append_match {db1 db : DB} {aid : Url} {r : ActivityRecord}
    (hact : db1.activities = db.activities ++ [r]) (hr : r.ap_id = aid) :
    is_activity_already_known db1 aid = true := by
  unfold is_activity_already_known
  rw [hact, List.any_append]
  simp [hr]

lemma known_append_other {db1 db : DB} {aid aid' : Url} {r : ActivityRecord}
    (hact : db1.activities = db.activities ++ [r]) (hr : r.ap_id = aid')
    (hne : aid ≠ aid') (hk : is_activity_already_known db aid = false) :
    is_activity_already_known db1 aid = false := by
  unfold is_activity_already_known at hk ⊢
  rw [hact, List.any_append, hk]
  simp [hr]
  exact fun hcontra => absurd hcontra.symm hne

/-- Inversion of an accepted (HTTP 200), non-replayed delivery: the run
passed the signature gate, wrote exactly the one Dedup Record, changed no
actor, community or ban rows, and attempted at most one announce. -/
lemma inbox_ok_inv {env : Env} {db : DB} {req : InboxRequest} {db1 : DB}
    {r : HttpResponse} {aid : Url}
    (h1 : community_inbox env db req = (db1, .ok r))
    (hgid : get_activity_id req.activity req.activity.actor = .ok aid)
    (hk : is_activity_already_known db aid = false) :
    req.sigOk = true ∧
    db1.activities = db.activities ++
      [{ ap_id := aid, data := req.activity, localFlag := false, sensitive := true }] ∧
    db1.persons = db.persons ∧ db1.communities = db.communities ∧
    db1.community_person_bans = db.community_person_bans ∧
    db1.announcesSent.length ≤ db.announcesSent.length + 1 := by
  unfold community_inbox inbox_verify_http_signature at h1
  cases hs : req.sigOk with
  | false =>
    rw [hs] at h1
    simp only [Bool.false_eq_true, if_false] at h1
    injection h1 with h1a h1b
    cases h1b
  | true =>
    rw [hs] at h1
    simp only [if_true] at h1
    rw [hgid] at h1
    simp only [hk, Bool.false_eq_true, if_false] at h1
    split at h1
    · injection h1 with h1a h1b; cases h1b
    · rename_i c hcr
      split at h1
      · injection h1 with h1a h1b; cases h1b
      · split at h1
        · injection h1 with h1a h1b; cases h1b
        · split at h1
          · injection h1 with h1a h1b; cases h1b
          · rename_i db2 hrec
            injection h1 with h1a h1b
            subst h1a
            obtain ⟨f1, f2, f3, f4, f5⟩ := receive_ok_frame hrec
            rw [insert_activity_activities] at f1
            rw [insert_activity_persons] at f2
            rw [insert_activity_communities] at f3
            rw [insert_activity_bans] at f4
            refine ⟨rfl, f1, f2, f3, f4, ?_⟩
            calc db2.announcesSent.length
                ≤ (insert_activity aid req.activity false true db).announcesSent.length + 1 := f5
              _ = db.announcesSent.length + 1 := rfl

/-- A delivery whose activity id is already recorded returns 200
immediately and leaves the state untouched. -/
lemma inbox_replay {env : Env} {db : DB} {req : InboxRequest} {aid : Url}
    (hsig : req.sigOk = true)
    (hgid : get_activity_id req.activity req.activity.actor = .ok aid)
    (hk : is_activity_already_known db aid = true) :
    community_inbox env db req = (db, .ok HttpResponse.ok200) := by
  unfold community_inbox inbox_verify_http_signature
  rw [hsig]
  simp only [if_true]
  rw [hgid]
  simp only [hk, if_true]

/- ------------------------------------------------------------------ -/
/- Claim theorems                                                      -/
/- ------------------------------------------------------------------ -/

/-- C1: after a first accepted (HTTP 200) delivery of a first-seen
activity id to the community inbox, exactly one Dedup Record exists for
that id, at most one announce was attempted, and a second delivery of the
same activity — under any collaborator behaviour — returns HTTP 200
immediately with the state completely unchanged, so no further processing
and no additional side effects occur. -/
theorem replay_idempotence (env env' : Env) (db : DB) (req : InboxRequest)
    (db1 : DB) (r : HttpResponse) (aid : Url)
    (h1 : community_inbox env db req = (db1, .ok r))
    (hgid : get_activity_id req.activity req.activity.actor = .ok aid)
    (hk : is_activity_already_known db aid = false) :
    countActivity db1 aid = 1 ∧
    db1.announcesSent.length ≤ db.announcesSent.length + 1 ∧
    community_inbox env' db1 req = (db1, .ok HttpResponse.ok200) := by
  obtain ⟨hsig, hact, _, _, _, hann⟩ := inbox_ok_inv h1 hgid hk
  have hcount : countActivity db1 aid = countActivity db aid + 1 := count_append_match hact rfl
  have hzero := known_false_count_zero hk
  have hknown1 : is_activity_already_known db1 aid = true := known_append_match hact rfl
  exact ⟨by omega, hann, inbox_replay hsig hgid hknown1⟩

/-- Witness for C1 at the concrete follow scenario; the redelivery is run
against collaborators that would fail, showing no handler re-execution. -/
theorem replay_idempotence_witness :
    countActivity (community_inbox envW db0 followRequest).1 followActivityId = 1 ∧
    (community_inbox envW db0 followRequest).1.announcesSent.length ≤
      db0.announcesSent.length + 1 ∧
    community_inbox envFail (community_inbox envW db0 followRequest).1 followRequest =
      ((community_inbox envW db0 followRequest).1, .ok HttpResponse.ok200) :=
  replay_idempotence envW envFail db0 followRequest
    (community_inbox envW db0 followRequest).1 HttpResponse.ok200 followActivityId
    rfl rfl rfl

/-- C2: an envelope whose HTTP signature does not verify is rejected by
the community inbox before any storage mutation: the state is returned
unchanged — no Dedup Record, no Follower Relation change, no content
(post/comment) change. -/
theorem signature_gate (env : Env) (db : DB) (req : InboxRequest)
    (hsig : req.sigOk = false) :
    community_inbox env db req = (db, .error (LemmyError.mk ("SignatureInvalid"))) ∧
    (community_inbox env db req).1.activities = db.activities ∧
    (community_inbox env db req).1.community_followers = db.community_followers ∧
    (community_inbox env db req).1.content = db.content := by
  have h : community_inbox env db req = (db, .error (LemmyError.mk ("SignatureInvalid"))) := by
    unfold community_inbox inbox_verify_http_signature
    rw [hsig]
    simp
  exact ⟨h, by rw [h], by rw [h], by rw [h]⟩

/-- Witness for C2 at the concrete follow scenario with a bad signature. -/
theorem signature_gate_witness :
    community_inbox envW db0 { followRequest with sigOk := false } =
      (db0, .error (LemmyError.mk ("SignatureInvalid"))) ∧
    (community_inbox envW db0 { followRequest with sigOk := false }).1.activities =
      db0.activities ∧
    (community_inbox envW db0 { followRequest with sigOk := false }).1.community_followers =
      db0.community_followers ∧
    (community_inbox envW db0 { followRequest with sigOk := false }).1.content = db0.content :=
  signature_gate envW db0 { followRequest with sigOk := false } rfl

/-- A site-banned sender makes community_receive_message fail with the
site-ban error before any dispatch. -/
lemma receive_banned_site {env : Env} {db : DB} {a : Activity} {c : Community}
    {u : Url} {p : Person}
    (hp : Person.read_from_apub_id db u = .ok p) (hb : p.banned = true) :
    community_receive_message env db a c u =
      .error (LemmyError.mk ("Person is banned from site")) := by
  unfold community_receive_message check_community_or_site_ban
  simp only [hp, hb, if_true]

/-- A community-banned sender makes community_receive_message fail with
the community-ban error before any dispatch. -/
lemma receive_banned_community {env : Env} {db : DB} {a : Activity} {c : Community}
    {u : Url} {p : Person}
    (hp : Person.read_from_apub_id db u = .ok p) (hbf : p.banned = false)
    (hb : exceptIsOk (CommunityPersonBanView.get db p.id c.id) = true) :
    community_receive_message env db a c u =
      .error (LemmyError.mk ("Person is banned from community")) := by
  unfold community_receive_message check_community_or_site_ban
  simp only [hp, hbf, hb, if_true, Bool.false_eq_true, if_false]

/-- Follow envelope sent by the site-banned person bob. -/
def bobFollowActivity : Activity :=
  { followActivity with
    id := some { host := "b.example", path := "/activities/follow/9" }, actor := bobUrl }

/-- Delivery of bob's follow envelope with a valid signature. -/
def bobFollowRequest : InboxRequest :=
  { activity := bobFollowActivity, path := "tech", sigOk := true }

/-- A fresh delivery from a banned sender ends in an error response with
content, followers, announces and accepts untouched. -/
lemma inbox_banned_run (env : Env) (db : DB) (req : InboxRequest)
    (p : Person)
    (hk : ∀ aid, get_activity_id req.activity req.activity.actor = .ok aid →
      is_activity_already_known db aid = false)
    (hp : Person.read_from_apub_id db req.activity.actor = .ok p)
    (hban : p.banned = true ∨ ∀ c, Community.read_from_name db req.path = .ok c →
      exceptIsOk (CommunityPersonBanView.get db p.id c.id) = true) :
    ∃ e dbx, community_inbox env db req = (dbx, .error e) ∧
      dbx.content = db.content ∧
      dbx.community_followers = db.community_followers ∧
      dbx.announcesSent = db.announcesSent ∧
      dbx.acceptsSent = db.acceptsSent := by
  unfold community_inbox inbox_verify_http_signature
  cases hs : req.sigOk with
  | false =>
    simp only [Bool.false_eq_true, if_false]
    exact ⟨_, db, rfl, rfl, rfl, rfl, rfl⟩
  | true =>
    simp only [if_true]
    cases hgid : get_activity_id req.activity req.activity.actor with
    | error e => exact ⟨e, db, rfl, rfl, rfl, rfl, rfl⟩
    | ok aid =>
      simp only [hk aid hgid, Bool.false_eq_true, if_false]
      cases hcr : Community.read_from_name db req.path with
      | error e => exact ⟨e, db, rfl, rfl, rfl, rfl, rfl⟩
      | ok c =>
        cases hcont : (get_activity_to_and_cc req.activity).contains c.actor_id with
        | false =>
          simp only [hcont, Bool.not_false, if_true]
          exact ⟨_, db, rfl, rfl, rfl, rfl, rfl⟩
        | true =>
          simp only [hcont, Bool.not_true, Bool.false_eq_true, if_false]
          cases hanl : assert_activity_not_local env req.activity with
          | error e => exact ⟨e, db, rfl, rfl, rfl, rfl, rfl⟩
          | ok uu =>
            cases uu
            have hp1 : Person.read_from_apub_id
                (insert_activity aid req.activity false true db) req.activity.actor = .ok p := hp
            have hrec : ∃ e, community_receive_message env
                (insert_activity aid req.activity false true db)
                req.activity c req.activity.actor = .error e := by
              rcases hban with hb | hb
              · exact ⟨_, receive_banned_site hp1 hb⟩
              · cases hbb : p.banned with
                | true => exact ⟨_, receive_banned_site hp1 hbb⟩
                | false =>
                  have hb1 : exceptIsOk (CommunityPersonBanView.get
                      (insert_activity aid req.activity false true db) p.id c.id) = true :=
                    hb c hcr
                  exact ⟨_, receive_banned_community hp1 hbb hb1⟩
            obtain ⟨e, hrec⟩ := hrec
            simp only [hrec]
            exact ⟨e, insert_activity aid req.activity false true db, rfl, rfl, rfl, rfl, rfl⟩

/-- C3 (amended): an activity from a sender banned site-wide or banned
from the target community produces no content mutation, no follower
change, no announce and no Accept; the HTTP response, however, is an
error, not a success acknowledgement — only later redeliveries of the
same id are acknowledged with 200 via the dedup short-circuit. -/
theorem ban_no_mutation_error_response (env : Env) (db : DB) (req : InboxRequest)
    (p : Person)
    (hk : ∀ aid, get_activity_id req.activity req.activity.actor = .ok aid →
      is_activity_already_known db aid = false)
    (hp : Person.read_from_apub_id db req.activity.actor = .ok p)
    (hban : p.banned = true ∨ ∀ c, Community.read_from_name db req.path = .ok c →
      exceptIsOk (CommunityPersonBanView.get db p.id c.id) = true) :
    ∃ e dbx, community_inbox env db req = (dbx, .error e) ∧
      dbx.content = db.content ∧
      dbx.community_followers = db.community_followers ∧
      dbx.announcesSent = db.announcesSent ∧
      dbx.acceptsSent = db.acceptsSent :=
  inbox_banned_run env db req p hk hp hban

/-- Witness for C3's amended statement at bob's concrete follow. -/
theorem ban_no_mutation_error_response_witness :
    ∃ e dbx, community_inbox envW db0 bobFollowRequest = (dbx, .error e) ∧
      dbx.content = db0.content ∧
      dbx.community_followers = db0.community_followers ∧
      dbx.announcesSent = db0.announcesSent ∧
      dbx.acceptsSent = db0.acceptsSent :=
  ban_no_mutation_error_response envW db0 bobFollowRequest bob
    (fun _ _ => rfl) rfl (Or.inl rfl)

/-- C3 counterexample: for bob's concrete banned delivery the HTTP
response is an error, not the success acknowledgement the claim states. -/
theorem ban_response_not_success_cex :
    (community_inbox envW db0 bobFollowRequest).2 =
      .error (LemmyError.mk ("Person is banned from site")) ∧
    (community_inbox envW db0 bobFollowRequest).2 ≠ .ok HttpResponse.ok200 := by
  constructor
  · rfl
  · intro h
    rw [show (community_inbox envW db0 bobFollowRequest).2 =
      Except.error (LemmyError.mk ("Person is banned from site")) from rfl] at h
    cases h

/-- Under a banned-resolved sender the final storage state of a delivery
is either the original state or the original state with only the Dedup
Record added. -/
lemma inbox_banned_state (env : Env) (db : DB) (req : InboxRequest) (p : Person)
    (hp : Person.read_from_apub_id db req.activity.actor = .ok p)
    (hban : p.banned = true ∨ ∀ c, Community.read_from_name db req.path = .ok c →
      exceptIsOk (CommunityPersonBanView.get db p.id c.id) = true) :
    (community_inbox env db req).1 = db ∨
    ∃ aid, (community_inbox env db req).1 = insert_activity aid req.activity false true db := by
  unfold community_inbox inbox_verify_http_signature
  cases hs : req.sigOk with
  | false => exact Or.inl rfl
  | true =>
    simp only [if_true]
    cases hgid : get_activity_id req.activity req.activity.actor with
    | error e => exact Or.inl rfl
    | ok aid =>
      simp only []
      cases hka : is_activity_already_known db aid with
      | true => exact Or.inl rfl
      | false =>
        cases hcr : Community.read_from_name db req.path with
        | error e => exact Or.inl rfl
        | ok c =>
          simp only []
          cases hcont : (get_activity_to_and_cc req.activity).contains c.actor_id with
          | false => exact Or.inl rfl
          | true =>
            cases hanl : assert_activity_not_local env req.activity with
            | error e => exact Or.inl rfl
            | ok uu =>
              cases uu
              simp only []
              have hp1 : Person.read_from_apub_id
                  (insert_activity aid req.activity false true db) req.activity.actor =
                    .ok p := hp
              have hrec : ∃ e, community_receive_message env
                  (insert_activity aid req.activity false true db)
                  req.activity c req.activity.actor = .error e := by
                rcases hban with hb | hb
                · exact ⟨_, receive_banned_site hp1 hb⟩
                · cases hbb : p.banned with
                  | true => exact ⟨_, receive_banned_site hp1 hbb⟩
                  | false =>
                    have hb1 : exceptIsOk (CommunityPersonBanView.get
                        (insert_activity aid req.activity false true db) p.id c.id) = true :=
                      hb c hcr
                    exact ⟨_, receive_banned_community hp1 hbb hb1⟩
              obtain ⟨e, hrec⟩ := hrec
              simp only [hrec]
              exact Or.inr ⟨aid, rfl⟩

/-- Any delivery from a banned-resolved sender (fresh or replayed) leaves
content, followers, announces and accepts untouched. -/
lemma inbox_banned_frame (env : Env) (db : DB) (req : InboxRequest) (p : Person)
    (hp : Person.read_from_apub_id db req.activity.actor = .ok p)
    (hban : p.banned = true ∨ ∀ c, Community.read_from_name db req.path = .ok c →
      exceptIsOk (CommunityPersonBanView.get db p.id c.id) = true) :
    (community_inbox env db req).1.content = db.content ∧
    (community_inbox env db req).1.community_followers = db.community_followers ∧
    (community_inbox env db req).1.announcesSent = db.announcesSent ∧
    (community_inbox env db req).1.acceptsSent = db.acceptsSent := by
  rcases inbox_banned_state env db req p hp hban with h | ⟨aid, h⟩ <;>
    rw [h] <;> exact ⟨rfl, rfl, rfl, rfl⟩

/-- C9: community_receive_message runs the site/community ban check
before the dispatch on the activity kind, so a banned sender's activity
of every kind — Follow and Undo included — fails with exactly the ban
error and no handler runs; consequently a banned person never creates a
Follower Relation through the community inbox. -/
theorem ban_check_before_dispatch (env : Env) (db : DB) (a : Activity) (c : Community)
    (u : Url) (p : Person)
    (hp : Person.read_from_apub_id db u = .ok p) :
    (p.banned = true →
      community_receive_message env db a c u =
        .error (LemmyError.mk ("Person is banned from site"))) ∧
    (p.banned = false → exceptIsOk (CommunityPersonBanView.get db p.id c.id) = true →
      community_receive_message env db a c u =
        .error (LemmyError.mk ("Person is banned from community"))) ∧
    (∀ req db2 q, Person.read_from_apub_id db2 req.activity.actor = .ok q →
      q.banned = true →
      (community_inbox env db2 req).1.community_followers = db2.community_followers) :=
  ⟨fun hb => receive_banned_site hp hb,
   fun hbf hb => receive_banned_community hp hbf hb,
   fun req db2 q hq hbq => (inbox_banned_frame env db2 req q hq (Or.inl hbq)).2.1⟩

/-- Witness for C9 with the banned person bob and the tech community. -/
theorem ban_check_before_dispatch_witness :
    (bob.banned = true →
      community_receive_message envW db0 bobFollowActivity tech bobUrl =
        .error (LemmyError.mk ("Person is banned from site"))) ∧
    (bob.banned = false →
      exceptIsOk (CommunityPersonBanView.get db0 bob.id tech.id) = true →
      community_receive_message envW db0 bobFollowActivity tech bobUrl =
        .error (LemmyError.mk ("Person is banned from community"))) ∧
    (∀ req db2 q, Person.read_from_apub_id db2 req.activity.actor = .ok q →
      q.banned = true →
      (community_inbox envW db2 req).1.community_followers = db2.community_followers) :=
  ban_check_before_dispatch envW db0 bobFollowActivity tech bobUrl bob rfl

lemma filter_keep_of_any_false {l : List CommunityFollower} {q : CommunityFollower → Bool}
    (h : l.any q = false) : l.filter (fun f => !q f) = l := by
  apply List.filter_eq_self.mpr
  intro a ha
  have := List.any_eq_false.mp h a ha
  simp [this]

lemma countFollowers_any_false {db : DB} {cid pid : Int}
    (h : db.community_followers.any
      (fun f => f.community_id == cid && f.person_id == pid) = false) :
    countFollowers db cid pid = 0 := by
  unfold countFollowers
  rw [List.length_eq_zero, List.filter_eq_nil_iff]
  intro f hf
  have := List.any_eq_false.mp h f hf
  simp at this
  simpa using this

/-- Characterizes an accepted delivery of a Follow envelope from a sender
who is already a follower: the uniqueness failure of the insert is
absorbed, the follower table is unchanged, the Accept is still emitted
and the response is 200. -/
lemma run_follow_dup (env : Env) (db : DB) (req : InboxRequest) (aid : Url)
    (p : Person) (c : Community)
    (hsig : req.sigOk = true)
    (hgid : get_activity_id req.activity req.activity.actor = .ok aid)
    (hk : is_activity_already_known db aid = false)
    (hc : Community.read_from_name db req.path = .ok c)
    (hto : (get_activity_to_and_cc req.activity).contains c.actor_id = true)
    (hnl : assert_activity_not_local env req.activity = .ok ())
    (hp : Person.read_from_apub_id db req.activity.actor = .ok p)
    (hb : check_community_or_site_ban p c.id db = .ok ())
    (hkind : req.activity.kind = some CommunityValidTypes.Follow)
    (hdom : verify_activity_domains_valid req.activity p.actor_id false = .ok ())
    (hnf : db.community_followers.any
      (fun f => f.community_id == c.id && f.person_id == p.id) = true) :
    community_inbox env db req =
      ({ insert_activity aid req.activity false true db with
          acceptsSent := db.acceptsSent ++ [p.actor_id] },
        .ok HttpResponse.ok200) := by
  obtain ⟨hid, hidh⟩ := get_activity_id_inv hgid
  have hfc := community_read_from_name_inv hc
  have hfp := person_read_inv hp
  obtain ⟨hban, hfb⟩ := ban_check_inv hb
  have hnl' := assert_not_local_inv hid hnl
  have hdomh := verify_domains_false_inv hid hdom
  simp only [community_inbox, inbox_verify_http_signature, hsig, if_true,
    get_activity_id, hid, hidh, hk, Bool.false_eq_true, if_false,
    Community.read_from_name, hfc, hto, Bool.not_true,
    assert_activity_not_local, hnl', insert_activity,
    community_receive_message, community_dispatch, Person.read_from_apub_id, hfp,
    check_community_or_site_ban, hban, CommunityPersonBanView.get, hfb,
    exceptIsOk, hkind, handle_follow, verify_activity_domains_valid, hdomh,
    CommunityFollower.follow, hnf, Bool.false_and, Bool.true_and,
    Bool.and_false, Bool.and_true, Bool.not_false, beq_self_eq_true]

/-- Characterizes an accepted delivery of an Undo(Follow) envelope: the
Dedup Record is written, every Follower Relation of the (community,
person) pair is removed (a missing relation is absorbed), nothing is
announced, no Accept is emitted, and the response is 200. -/
lemma run_undo_follow (env : Env) (db : DB) (req : InboxRequest) (aid : Url)
    (p : Person) (c : Community)
    (hsig : req.sigOk = true)
    (hgid : get_activity_id req.activity req.activity.actor = .ok aid)
    (hk : is_activity_already_known db aid = false)
    (hc : Community.read_from_name db req.path = .ok c)
    (hto : (get_activity_to_and_cc req.activity).contains c.actor_id = true)
    (hnl : assert_activity_not_local env req.activity = .ok ())
    (hp : Person.read_from_apub_id db req.activity.actor = .ok p)
    (hb : check_community_or_site_ban p c.id db = .ok ())
    (hkind : req.activity.kind = some CommunityValidTypes.Undo)
    (hok : req.activity.objectKind = some ("Follow"))
    (hdom : verify_activity_domains_valid req.activity req.activity.actor true = .ok ()) :
    community_inbox env db req =
      ({ insert_activity aid req.activity false true db with
          community_followers := db.community_followers.filter
            (fun f => !(f.community_id == c.id && f.person_id == p.id)) },
        .ok HttpResponse.ok200) := by
  obtain ⟨hid, hidh⟩ := get_activity_id_inv hgid
  have hfc := community_read_from_name_inv hc
  have hfp := person_read_inv hp
  obtain ⟨hban, hfb⟩ := ban_check_inv hb
  have hnl' := assert_not_local_inv hid hnl
  obtain ⟨hdomh, oid, hoid, hoidh⟩ := verify_domains_true_inv hid hdom
  cases hmem : db.community_followers.any
      (fun f => f.community_id == c.id && f.person_id == p.id) with
  | true =>
    simp only [community_inbox, inbox_verify_http_signature, hsig, if_true,
      get_activity_id, hid, hidh, hk, Bool.false_eq_true, if_false,
      Community.read_from_name, hfc, hto, Bool.not_true,
      assert_activity_not_local, hnl', insert_activity,
      community_receive_message, community_dispatch, Person.read_from_apub_id, hfp,
      check_community_or_site_ban, hban, CommunityPersonBanView.get, hfb,
      exceptIsOk, hkind, handle_undo, hok, handle_undo_follow,
      verify_activity_domains_valid, hdomh, hoid, hoidh,
      CommunityFollower.unfollow, hmem, Bool.false_and, Bool.true_and,
      Bool.and_false, Bool.and_true, Bool.not_false, Bool.not_true,
      beq_self_eq_true]
  | false =>
    have hfilter : db.community_followers.filter
        (fun f => !(f.community_id == c.id && f.person_id == p.id)) =
          db.community_followers := filter_keep_of_any_false hmem
    simp only [community_inbox, inbox_verify_http_signature, hsig, if_true,
      get_activity_id, hid, hidh, hk, Bool.false_eq_true, if_false,
      Community.read_from_name, hfc, hto, Bool.not_true,
      assert_activity_not_local, hnl', insert_activity,
      community_receive_message, community_dispatch, Person.read_from_apub_id, hfp,
      check_community_or_site_ban, hban, CommunityPersonBanView.get, hfb,
      exceptIsOk, hkind, handle_undo, hok, handle_undo_follow,
      verify_activity_domains_valid, hdomh, hoid, hoidh,
      CommunityFollower.unfollow, hmem, hfilter, Bool.false_and, Bool.true_and,
      Bool.and_false, Bool.and_true, Bool.not_false, Bool.not_true,
      beq_self_eq_true]

lemma countFollowers_append_one {db1 db : DB} {cid pid : Int} {r : CommunityFollower}
    (h : db1.community_followers = db.community_followers ++ [r])
    (hr : (r.community_id == cid && r.person_id == pid) = true) :
    countFollowers db1 cid pid = countFollowers db cid pid + 1 := by
  unfold countFollowers
  rw [h, List.filter_append, List.length_append]
  simp [hr]

lemma countFollowers_eq_of {db1 db : DB} {cid pid : Int}
    (h : db1.community_followers = db.community_followers) :
    countFollowers db1 cid pid = countFollowers db cid pid := by
  unfold countFollowers
  rw [h]

lemma countFollowers_after_remove {db1 : DB} {l : List CommunityFollower} {cid pid : Int}
    (h : db1.community_followers =
      l.filter (fun f => !(f.community_id == cid && f.person_id == pid))) :
    countFollowers db1 cid pid = 0 := by
  unfold countFollowers
  rw [h, List.length_eq_zero, List.filter_eq_nil_iff]
  intro a ha
  rw [List.mem_filter] at ha
  have ha2 := ha.2
  simp only [Bool.not_eq_true'] at ha2
  simp [ha2]

lemma countFollowers_pos_of_any {db : DB} {cid pid : Int}
    (h : db.community_followers.any
      (fun f => f.community_id == cid && f.person_id == pid) = true) :
    1 ≤ countFollowers db cid pid := by
  unfold countFollowers
  obtain ⟨x, hx, hq⟩ := List.any_eq_true.mp h
  exact List.length_pos_of_mem (List.mem_filter.mpr ⟨hx, hq⟩)

lemma read_from_name_eq_of {db1 db : DB} (h : db1.communities = db.communities)
    (n : String) : Community.read_from_name db1 n = Community.read_from_name db n := by
  unfold Community.read_from_name
  rw [h]

lemma person_read_eq_of {db1 db : DB} (h : db1.persons = db.persons) (u : Url) :
    Person.read_from_apub_id db1 u = Person.read_from_apub_id db u := by
  unfold Person.read_from_apub_id
  rw [h]

lemma ban_check_eq_of {db1 db : DB}
    (h : db1.community_person_bans = db.community_person_bans) (p : Person) (cid : Int) :
    check_community_or_site_ban p cid db1 = check_community_or_site_ban p cid db := by
  unfold check_community_or_site_ban CommunityPersonBanView.get
  rw [h]

lemma any_append_r {l : List CommunityFollower} {r : CommunityFollower}
    {q : CommunityFollower → Bool} (hq : q r = true) : (l ++ [r]).any q = true := by
  simp [List.any_append, hq]

/-- C4: a Follow from a remote person with a valid signature, a first-seen
id, addressed to the local community and domain-consistent, creates
exactly one Follower Relation (community, person, pending false),
synchronously emits one Accept to the sender, returns HTTP 200 and
announces nothing. -/
theorem follow_scenario (env : Env) (db : DB) (req : InboxRequest) (aid : Url)
    (p : Person) (c : Community)
    (hsig : req.sigOk = true)
    (hgid : get_activity_id req.activity req.activity.actor = .ok aid)
    (hk : is_activity_already_known db aid = false)
    (hc : Community.read_from_name db req.path = .ok c)
    (hto : (get_activity_to_and_cc req.activity).contains c.actor_id = true)
    (hnl : assert_activity_not_local env req.activity = .ok ())
    (hp : Person.read_from_apub_id db req.activity.actor = .ok p)
    (hb : check_community_or_site_ban p c.id db = .ok ())
    (hkind : req.activity.kind = some CommunityValidTypes.Follow)
    (hdom : verify_activity_domains_valid req.activity p.actor_id false = .ok ())
    (hnf : db.community_followers.any
      (fun f => f.community_id == c.id && f.person_id == p.id) = false) :
    (community_inbox env db req).2 = .ok HttpResponse.ok200 ∧
    (community_inbox env db req).1.community_followers =
      db.community_followers ++
        [{ id := (db.community_followers.length : Int) + 1, community_id := c.id,
           person_id := p.id, published := 0, pending := some false }] ∧
    countFollowers (community_inbox env db req).1 c.id p.id = 1 ∧
    (community_inbox env db req).1.acceptsSent = db.acceptsSent ++ [p.actor_id] ∧
    (community_inbox env db req).1.announcesSent = db.announcesSent := by
  have hrun := run_follow_fresh env db req aid p c hsig hgid hk hc hto hnl hp hb hkind hdom hnf
  refine ⟨?_, ?_, ?_, ?_, ?_⟩
  · rw [hrun]
  · rw [hrun]
  · rw [hrun]
    rw [countFollowers_append_one rfl (by simp), countFollowers_any_false hnf]
  · rw [hrun]
  · rw [hrun]
    rfl

/-- Witness for C4: alice follows the tech community. -/
theorem follow_scenario_witness :
    (community_inbox envW db0 followRequest).2 = .ok HttpResponse.ok200 ∧
    (community_inbox envW db0 followRequest).1.community_followers =
      db0.community_followers ++
        [{ id := (db0.community_followers.length : Int) + 1, community_id := tech.id,
           person_id := alice.id, published := 0, pending := some false }] ∧
    countFollowers (community_inbox envW db0 followRequest).1 tech.id alice.id = 1 ∧
    (community_inbox envW db0 followRequest).1.acceptsSent =
      db0.acceptsSent ++ [alice.actor_id] ∧
    (community_inbox envW db0 followRequest).1.announcesSent = db0.announcesSent :=
  follow_scenario envW db0 followRequest followActivityId alice tech
    rfl rfl rfl rfl rfl rfl rfl rfl rfl rfl rfl

/-- C5: through the community inbox, delivering a Follow and then an
Undo(Follow) for the same (person, community) pair leaves no Follower
Relation for the pair, and delivering a Follow and then a second Follow
(fresh activity id) leaves exactly one, provided the pair had at most one
relation to begin with (the uniqueness invariant). -/
theorem follow_undo_symmetry (env : Env) (db : DB) (req1 req2 req3 : InboxRequest)
    (aid1 aid2 aid3 : Url) (p : Person) (c : Community)
    (h1sig : req1.sigOk = true)
    (h1gid : get_activity_id req1.activity req1.activity.actor = .ok aid1)
    (h1k : is_activity_already_known db aid1 = false)
    (h1c : Community.read_from_name db req1.path = .ok c)
    (h1to : (get_activity_to_and_cc req1.activity).contains c.actor_id = true)
    (h1nl : assert_activity_not_local env req1.activity = .ok ())
    (h1p : Person.read_from_apub_id db req1.activity.actor = .ok p)
    (h1b : check_community_or_site_ban p c.id db = .ok ())
    (h1kind : req1.activity.kind = some CommunityValidTypes.Follow)
    (h1dom : verify_activity_domains_valid req1.activity p.actor_id false = .ok ())
    (h2sig : req2.sigOk = true)
    (h2gid : get_activity_id req2.activity req2.activity.actor = .ok aid2)
    (h2ne : aid2 ≠ aid1)
    (h2k : is_activity_already_known db aid2 = false)
    (h2c : Community.read_from_name db req2.path = .ok c)
    (h2to : (get_activity_to_and_cc req2.activity).contains c.actor_id = true)
    (h2nl : assert_activity_not_local env req2.activity = .ok ())
    (h2p : Person.read_from_apub_id db req2.activity.actor = .ok p)
    (h2kind : req2.activity.kind = some CommunityValidTypes.Undo)
    (h2ok : req2.activity.objectKind = some ("Follow"))
    (h2dom : verify_activity_domains_valid req2.activity req2.activity.actor true = .ok ())
    (h3sig : req3.sigOk = true)
    (h3gid : get_activity_id req3.activity req3.activity.actor = .ok aid3)
    (h3ne : aid3 ≠ aid1)
    (h3k : is_activity_already_known db aid3 = false)
    (h3c : Community.read_from_name db req3.path = .ok c)
    (h3to : (get_activity_to_and_cc req3.activity).contains c.actor_id = true)
    (h3nl : assert_activity_not_local env req3.activity = .ok ())
    (h3p : Person.read_from_apub_id db req3.activity.actor = .ok p)
    (h3kind : req3.activity.kind = some CommunityValidTypes.Follow)
    (h3dom : verify_activity_domains_valid req3.activity p.actor_id false = .ok ())
    (hinv : countFollowers db c.id p.id ≤ 1) :
    countFollowers (community_inbox env (community_inbox env db req1).1 req2).1 c.id p.id = 0 ∧
    countFollowers (community_inbox env (community_inbox env db req1).1 req3).1 c.id p.id = 1 := by
  cases hmem : db.community_followers.any
      (fun f => f.community_id == c.id && f.person_id == p.id) with
  | false =>
    have hrun1 := run_follow_fresh env db req1 aid1 p c
      h1sig h1gid h1k h1c h1to h1nl h1p h1b h1kind h1dom hmem
    have hS1act : (community_inbox env db req1).1.activities = db.activities ++
        [{ ap_id := aid1, data := req1.activity, localFlag := false, sensitive := true }] := by
      rw [hrun1]
      rfl
    have hS1comm : (community_inbox env db req1).1.communities = db.communities := by
      rw [hrun1]
      rfl
    have hS1per : (community_inbox env db req1).1.persons = db.persons := by
      rw [hrun1]
      rfl
    have hS1ban : (community_inbox env db req1).1.community_person_bans =
        db.community_person_bans := by
      rw [hrun1]
      rfl
    have hS1fol : (community_inbox env db req1).1.community_followers =
        db.community_followers ++
          [{ id := (db.community_followers.length : Int) + 1, community_id := c.id,
             person_id := p.id, published := 0, pending := some false }] := by
      rw [hrun1]
    constructor
    · have hrun2 := run_undo_follow env (community_inbox env db req1).1 req2 aid2 p c
        h2sig h2gid (known_append_other hS1act rfl h2ne h2k)
        ((read_from_name_eq_of hS1comm req2.path).trans h2c)
        h2to h2nl ((person_read_eq_of hS1per req2.activity.actor).trans h2p)
        ((ban_check_eq_of hS1ban p c.id).trans h1b) h2kind h2ok h2dom
      rw [hrun2]
      exact countFollowers_after_remove rfl
    · have hany2 : (community_inbox env db req1).1.community_followers.any
          (fun f => f.community_id == c.id && f.person_id == p.id) = true := by
        rw [hS1fol]
        exact any_append_r (by simp)
      have hrun3 := run_follow_dup env (community_inbox env db req1).1 req3 aid3 p c
        h3sig h3gid (known_append_other hS1act rfl h3ne h3k)
        ((read_from_name_eq_of hS1comm req3.path).trans h3c)
        h3to h3nl ((person_read_eq_of hS1per req3.activity.actor).trans h3p)
        ((ban_check_eq_of hS1ban p c.id).trans h1b) h3kind h3dom hany2
      have hfol3 : (community_inbox env (community_inbox env db req1).1 req3).1.community_followers =
          db.community_followers ++
            [{ id := (db.community_followers.length : Int) + 1, community_id := c.id,
               person_id := p.id, published := 0, pending := some false }] := by
        rw [hrun3]
        exact hS1fol
      rw [countFollowers_append_one hfol3 (by simp), countFollowers_any_false hmem]
  | true =>
    have hrun1 := run_follow_dup env db req1 aid1 p c
      h1sig h1gid h1k h1c h1to h1nl h1p h1b h1kind h1dom hmem
    have hS1act : (community_inbox env db req1).1.activities = db.activities ++
        [{ ap_id := aid1, data := req1.activity, localFlag := false, sensitive := true }] := by
      rw [hrun1]
      rfl
    have hS1comm : (community_inbox env db req1).1.communities = db.communities := by
      rw [hrun1]
      rfl
    have hS1per : (community_inbox env db req1).1.persons = db.persons := by
      rw [hrun1]
      rfl
    have hS1ban : (community_inbox env db req1).1.community_person_bans =
        db.community_person_bans := by
      rw [hrun1]
      rfl
    have hS1fol : (community_inbox env db req1).1.community_followers =
        db.community_followers := by
      rw [hrun1]
      rfl
    constructor
    · have hrun2 := run_undo_follow env (community_inbox env db req1).1 req2 aid2 p c
        h2sig h2gid (known_append_other hS1act rfl h2ne h2k)
        ((read_from_name_eq_of hS1comm req2.path).trans h2c)
        h2to h2nl ((person_read_eq_of hS1per req2.activity.actor).trans h2p)
        ((ban_check_eq_of hS1ban p c.id).trans h1b) h2kind h2ok h2dom
      rw [hrun2]
      exact countFollowers_after_remove rfl
    · have hany2 : (community_inbox env db req1).1.community_followers.any
          (fun f => f.community_id == c.id && f.person_id == p.id) = true := by
        rw [hS1fol]
        exact hmem
      have hrun3 := run_follow_dup env (community_inbox env db req1).1 req3 aid3 p c
        h3sig h3gid (known_append_other hS1act rfl h3ne h3k)
        ((read_from_name_eq_of hS1comm req3.path).trans h3c)
        h3to h3nl ((person_read_eq_of hS1per req3.activity.actor).trans h3p)
        ((ban_check_eq_of hS1ban p c.id).trans h1b) h3kind h3dom hany2
      have hfol3 : (community_inbox env (community_inbox env db req1).1 req3).1.community_followers =
          db.community_followers := by
        rw [hrun3]
        exact hS1fol
      rw [countFollowers_eq_of hfol3]
      have hpos := countFollowers_pos_of_any hmem
      omega

/-- Witness for C5: alice follows, then unfollows (and alternatively
follows again), the tech community. -/
theorem follow_undo_symmetry_witness :
    countFollowers (community_inbox envW
      (community_inbox envW db0 followRequest).1 undoRequest).1 tech.id alice.id = 0 ∧
    countFollowers (community_inbox envW
      (community_inbox envW db0 followRequest).1 followRequest2).1 tech.id alice.id = 1 :=
  follow_undo_symmetry envW db0 followRequest undoRequest followRequest2
    followActivityId undoActivityId followActivityId2 alice tech
    rfl rfl rfl rfl rfl rfl rfl rfl rfl rfl
    rfl rfl (by decide) rfl rfl rfl rfl rfl rfl rfl rfl
    rfl rfl (by decide) rfl rfl rfl rfl rfl rfl rfl
    (by decide)

/-- Storage state in which the local person carol already follows the
local tech community. -/
def dbDup : DB :=
  { db0 with community_followers :=
      [{ id := 1, community_id := 1, person_id := 3, published := 0, pending := some false }] }

/-- C6 counterexample: on a duplicate follow the remote inbox handler
succeeds, but the local FollowCommunity API operation fails with the
community_follower_already_exists error — the two paths do not both
succeed. -/
theorem duplicate_follow_not_uniformly_absorbed_cex :
    exceptIsOk (handle_follow
      { db0 with community_followers :=
          [{ id := 1, community_id := 1, person_id := 1, published := 0,
             pending := some false }] }
      followActivity alice tech) = true ∧
    FollowCommunity.perform dbDup carol { community_id := 1, follow := true } =
      .error (LemmyError.mk ("community_follower_already_exists")) := by
  exact ⟨rfl, rfl⟩

/-- C6 (amended): a duplicate follow is absorbed on the remote inbox
path — handle_follow succeeds and leaves the follower table unchanged,
only re-emitting the Accept — while the local FollowCommunity API
operation escalates it to the caller as the
community_follower_already_exists error. -/
theorem duplicate_follow_asymmetry (db : DB) (act : Activity) (p : Person) (c : Community)
    (hkind : act.kind = some CommunityValidTypes.Follow)
    (hdom : verify_activity_domains_valid act p.actor_id false = .ok ())
    (hdup : db.community_followers.any
      (fun f => f.community_id == c.id && f.person_id == p.id) = true)
    (db' : DB) (person : Person) (data : FollowCommunityData) (c' : Community)
    (hcr : Community.read db' data.community_id = .ok c')
    (hl : c'.localFlag = true)
    (hf : data.follow = true)
    (hban : check_community_ban person.id data.community_id db' = .ok ())
    (hdup' : db'.community_followers.any
      (fun f => f.community_id == data.community_id && f.person_id == person.id) = true) :
    handle_follow db act p c = .ok { db with acceptsSent := db.acceptsSent ++ [p.actor_id] } ∧
    FollowCommunity.perform db' person data =
      .error (LemmyError.mk ("community_follower_already_exists")) := by
  constructor
  · simp only [handle_follow, hkind, hdom, CommunityFollower.follow, hdup, if_true,
      beq_self_eq_true, Bool.not_true, Bool.false_eq_true, if_false]
  · simp only [FollowCommunity.perform, hcr, hl, hf, hban, CommunityFollower.follow,
      hdup', if_true, Bool.false_eq_true, if_false]

/-- Witness for C6's amended statement: duplicate follows by alice
(remote) and carol (local). -/
theorem duplicate_follow_asymmetry_witness :
    handle_follow
      { db0 with community_followers :=
          [{ id := 1, community_id := 1, person_id := 1, published := 0,
             pending := some false }] }
      followActivity alice tech =
      .ok { { db0 with community_followers :=
          [{ id := 1, community_id := 1, person_id := 1, published := 0,
             pending := some false }] } with
          acceptsSent :=
            { db0 with community_followers :=
                [{ id := 1, community_id := 1, person_id := 1, published := 0,
                   pending := some false }] }.acceptsSent ++ [alice.actor_id] } ∧
    FollowCommunity.perform dbDup carol { community_id := 1, follow := true } =
      .error (LemmyError.mk ("community_follower_already_exists")) :=
  duplicate_follow_asymmetry
    { db0 with community_followers :=
        [{ id := 1, community_id := 1, person_id := 1, published := 0,
           pending := some false }] }
    followActivity alice tech rfl rfl rfl
    dbDup carol { community_id := 1, follow := true } tech
    rfl rfl rfl rfl rfl

/-- Remote page fixture: authored by alice, addressed to tech and public,
with a clean name and a denylisted word in the body. -/
def pageW : PageExt :=
  { id := some { host := "a.example", path := "/post/1" },
    attributed_to := some aliceUrl, to_ := [techUrl, publicUrl],
    name := some ("hello world"), summary := none,
    source_content := some ("nice denylisted body"),
    image := none, url := none, published := some 5, updated := none,
    comments_enabled := some true, sensitive := some false, stickied := some false }

/-- Expected domain implied by the HTTP path of the delivery. -/
def expectedDom : Url := { host := "a.example", path := "/post/1" }

/-- The page fixture with a self-identifier from a foreign domain. -/
def mismatchPage : PageExt :=
  { pageW with id := some { host := "c.example", path := "/post/1" } }

/-- The mismatched page with a denylisted word also in its name. -/
def slurMismatchPage : PageExt :=
  { mismatchPage with name := some ("denylisted title") }

/-- Translating an object whose self-identifier domain differs from the
expected domain always fails, whatever the failure reason. -/
lemma from_apub_mismatch_fails (env : Env) (db : DB) (page : PageExt) (exp : Url)
    (oid : Url) (hid : page.id = some oid) (hmm : (oid.host == exp.host) = false) :
    ∃ e, PostForm.from_apub env db page exp = .error e := by
  unfold PostForm.from_apub
  cases hat : page.attributed_to with
  | none => exact ⟨_, rfl⟩
  | some ca =>
    simp only []
    cases hper : get_or_fetch_and_upsert_person db ca with
    | error e => exact ⟨e, rfl⟩
    | ok creator =>
      simp only []
      cases hcm : get_to_community db page with
      | error e => exact ⟨e, rfl⟩
      | ok comm =>
        simp only []
        cases hname : page.name.or page.summary with
        | none => exact ⟨_, rfl⟩
        | some n =>
          simp only []
          cases hcs : check_slurs n with
          | error e => exact ⟨e, rfl⟩
          | ok uu =>
            cases uu
            simp only []
            have hdom : check_object_domain page exp =
                .error (LemmyError.mk ("DomainMismatch")) := by
              unfold check_object_domain
              simp only [hid, hmm, Bool.false_eq_true, if_false]
            simp only [hdom]
            exact ⟨_, rfl⟩

/-- Characterizes a successful inbound post translation. -/
lemma from_apub_success (env : Env) (db : DB) (page : PageExt) (exp : Url)
    (ca : Url) (creator : Person) (comm : Community) (n : String) (oid : Url)
    (hat : page.attributed_to = some ca)
    (hper : get_or_fetch_and_upsert_person db ca = .ok creator)
    (hcm : get_to_community db page = .ok comm)
    (hname : page.name.or page.summary = some n)
    (hsl : containsSlurs n = false)
    (hid : page.id = some oid)
    (hdm : (oid.host == exp.host) = true) :
    PostForm.from_apub env db page exp = .ok
      { name := n,
        url := page.url,
        body := page.source_content.map remove_slurs,
        creator_id := creator.id,
        community_id := comm.id,
        removed := none,
        locked := page.comments_enabled.map (fun e => !e),
        published := page.published,
        updated := page.updated,
        deleted := none,
        nsfw := page.sensitive.getD false,
        stickied := page.stickied.or (some false),
        embed_title := (match page.url with
          | some u => env.iframely u
          | none => (none, none, none, page.image)).1,
        embed_description := (match page.url with
          | some u => env.iframely u
          | none => (none, none, none, page.image)).2.1,
        embed_html := (match page.url with
          | some u => env.iframely u
          | none => (none, none, none, page.image)).2.2.1,
        thumbnail_url := (match page.url with
          | some u => env.iframely u
          | none => (none, none, none, page.image)).2.2.2,
        ap_id := some oid,
        localFlag := false } := by
  simp only [PostForm.from_apub, hat, hper, hcm, hname, check_slurs, hsl,
    Bool.false_eq_true, if_false, check_object_domain, hid, hdm, if_true,
    get_source_markdown_value]

/-- C7 (amended): an inbound object whose self-identifier domain differs
from the expected domain is never translated into a post form — the
translation always fails — and the failure is precisely DomainMismatch
whenever the preceding extraction steps (creator and community
resolution, name extraction, the name content filter) pass. -/
theorem domain_containment (env : Env) (db : DB) (page : PageExt) (exp : Url)
    (oid : Url) (hid : page.id = some oid) (hmm : (oid.host == exp.host) = false) :
    (∃ e, PostForm.from_apub env db page exp = .error e) ∧
    (∀ ca creator comm n, page.attributed_to = some ca →
      get_or_fetch_and_upsert_person db ca = .ok creator →
      get_to_community db page = .ok comm →
      page.name.or page.summary = some n →
      containsSlurs n = false →
      PostForm.from_apub env db page exp = .error (LemmyError.mk ("DomainMismatch"))) := by
  refine ⟨from_apub_mismatch_fails env db page exp oid hid hmm, ?_⟩
  intro ca creator comm n hat hper hcm hname hsl
  simp only [PostForm.from_apub, hat, hper, hcm, hname, check_slurs, hsl,
    Bool.false_eq_true, if_false, check_object_domain, hid, hmm]

/-- Witness for C7's amended statement at the concrete mismatched page. -/
theorem domain_containment_witness :
    (∃ e, PostForm.from_apub envW db0 mismatchPage expectedDom = .error e) ∧
    (∀ ca creator comm n, mismatchPage.attributed_to = some ca →
      get_or_fetch_and_upsert_person db0 ca = .ok creator →
      get_to_community db0 mismatchPage = .ok comm →
      mismatchPage.name.or mismatchPage.summary = some n →
      containsSlurs n = false →
      PostForm.from_apub envW db0 mismatchPage expectedDom =
        .error (LemmyError.mk ("DomainMismatch"))) :=
  domain_containment envW db0 mismatchPage expectedDom
    { host := "c.example", path := "/post/1" } rfl rfl

/-- C7 counterexample: a mismatched-domain page whose name also contains
a denylisted word is rejected with the slur-filter error, not with
DomainMismatch, because the name filter runs before the domain check. -/
theorem domain_mismatch_error_not_first_cex :
    PostForm.from_apub envW db0 slurMismatchPage expectedDom =
      .error (LemmyError.mk ("slurs")) ∧
    LemmyError.mk ("slurs") ≠ LemmyError.mk ("DomainMismatch") := by
  exact ⟨rfl, by decide⟩

/-- C8: the content filter is asymmetric — a denylisted substring in a
remote post's name blocks the translation with the slurs error, a
denylisted substring in the remote post's body is stripped and the post
is still accepted, and the blocking check also runs eagerly on the
locally supplied name, title and description of CreateCommunity before
any storage access. -/
theorem slur_filter_asymmetry (env : Env) (db : DB) (page : PageExt) (exp : Url)
    (ca : Url) (creator : Person) (comm : Community) (n : String)
    (hat : page.attributed_to = some ca)
    (hper : get_or_fetch_and_upsert_person db ca = .ok creator)
    (hcm : get_to_community db page = .ok comm)
    (hname : page.name.or page.summary = some n) :
    (containsSlurs n = true →
      PostForm.from_apub env db page exp = .error (LemmyError.mk ("slurs"))) ∧
    (∀ b oid, containsSlurs n = false → page.source_content = some b →
      page.id = some oid → (oid.host == exp.host) = true →
      ∃ form, PostForm.from_apub env db page exp = .ok form ∧
        form.name = n ∧ form.body = some (remove_slurs b)) ∧
    (∀ db' u data, (containsSlurs data.name = true ∨ containsSlurs data.title = true ∨
        ∃ d, data.description = some d ∧ containsSlurs d = true) →
      CreateCommunity.perform env db' u data = .error (LemmyError.mk ("slurs"))) := by
  refine ⟨?_, ?_, ?_⟩
  · intro hslur
    simp only [PostForm.from_apub, hat, hper, hcm, hname, check_slurs, hslur, if_true]
  · intro b oid hsl hb hid hdm
    refine ⟨_, from_apub_success env db page exp ca creator comm n oid
      hat hper hcm hname hsl hid hdm, rfl, ?_⟩
    rw [hb]
    rfl
  · intro db' u data hslur
    cases hn : containsSlurs data.name with
    | true => simp only [CreateCommunity.perform, check_slurs, hn, if_true]
    | false =>
      cases ht : containsSlurs data.title with
      | true =>
        simp only [CreateCommunity.perform, check_slurs, hn, ht,
          Bool.false_eq_true, if_false, if_true]
      | false =>
        rcases hslur with h | h | ⟨d, hd, hds⟩
        · rw [hn] at h; cases h
        · rw [ht] at h; cases h
        · simp only [CreateCommunity.perform, check_slurs, hn, ht,
            Bool.false_eq_true, if_false, check_slurs_opt, hd, hds, if_true]

/-- Witness for C8 at the concrete page fixture (clean name, denylisted
body word) and a concrete CreateCommunity request. -/
theorem slur_filter_asymmetry_witness :
    (containsSlurs ("hello world") = true →
      PostForm.from_apub envW db0 pageW expectedDom = .error (LemmyError.mk ("slurs"))) ∧
    (∀ b oid, containsSlurs ("hello world") = false → pageW.source_content = some b →
      pageW.id = some oid → (oid.host == expectedDom.host) = true →
      ∃ form, PostForm.from_apub envW db0 pageW expectedDom = .ok form ∧
        form.name = ("hello world") ∧ form.body = some (remove_slurs b)) ∧
    (∀ db' u data, (containsSlurs data.name = true ∨ containsSlurs data.title = true ∨
        ∃ d, data.description = some d ∧ containsSlurs d = true) →
      CreateCommunity.perform envW db' u data = .error (LemmyError.mk ("slurs"))) :=
  slur_filter_asymmetry envW db0 pageW expectedDom aliceUrl alice tech ("hello world")
    rfl rfl rfl rfl

/-- C10: the community inbox inserts the Dedup Record before dispatching
to the semantic handler, so when the handler fails the record persists,
and every later redelivery of the same activity id — under any
collaborator behaviour — returns HTTP 200 through the AlreadySeen
short-circuit with the state unchanged: partial effects of a failed first
delivery are never completed by redelivering the same id. -/
theorem dedup_before_dispatch (env : Env) (db : DB) (req : InboxRequest) (aid : Url)
    (c : Community) (e : LemmyError)
    (hsig : req.sigOk = true)
    (hgid : get_activity_id req.activity req.activity.actor = .ok aid)
    (hk : is_activity_already_known db aid = false)
    (hc : Community.read_from_name db req.path = .ok c)
    (hto : (get_activity_to_and_cc req.activity).contains c.actor_id = true)
    (hnl : assert_activity_not_local env req.activity = .ok ())
    (hfail : community_receive_message env (insert_activity aid req.activity false true db)
      req.activity c req.activity.actor = .error e) :
    community_inbox env db req = (insert_activity aid req.activity false true db, .error e) ∧
    is_activity_already_known (insert_activity aid req.activity false true db) aid = true ∧
    ∀ env', community_inbox env' (insert_activity aid req.activity false true db) req =
      (insert_activity aid req.activity false true db, .ok HttpResponse.ok200) := by
  have hknown : is_activity_already_known
      (insert_activity aid req.activity false true db) aid = true :=
    known_append_match (insert_activity_activities aid req.activity false true db) rfl
  refine ⟨?_, hknown, fun env' => inbox_replay hsig hgid hknown⟩
  obtain ⟨hid, hidh⟩ := get_activity_id_inv hgid
  have hfc := community_read_from_name_inv hc
  have hnl' := assert_not_local_inv hid hnl
  simp only [community_inbox, inbox_verify_http_signature, hsig, if_true,
    get_activity_id, hid, hidh, hk, Bool.false_eq_true, if_false,
    Community.read_from_name, hfc, hto, Bool.not_true,
    assert_activity_not_local, hnl', hfail]

/-- Witness for C10: alice's Like delivered against collaborators whose
content handler fails; the redelivery is checked under collaborators that
would succeed. -/
theorem dedup_before_dispatch_witness :
    community_inbox envFail db0 likeRequest =
      (insert_activity likeActivityId likeRequest.activity false true db0,
        .error (LemmyError.mk ("collaborator failure"))) ∧
    is_activity_already_known
      (insert_activity likeActivityId likeRequest.activity false true db0)
      likeActivityId = true ∧
    ∀ env', community_inbox env'
      (insert_activity likeActivityId likeRequest.activity false true db0) likeRequest =
      (insert_activity likeActivityId likeRequest.activity false true db0,
        .ok HttpResponse.ok200) :=
  dedup_before_dispatch envFail db0 likeRequest likeActivityId tech
    (LemmyError.mk ("collaborator failure")) rfl rfl rfl rfl rfl rfl rfl
